import Mathlib

/-!
Verification development for the football match simulation engine
(`src/mobile/src-tauri/src/simulation/engine.rs` together with the data
model in `src/mobile/src-tauri/src/models/mod.rs`).

The engine is embedded shallowly:
* `f64` values are modelled as `ℚ` (every constant in the engine is an
  exact decimal, so the rational semantics is the intended one);
* `i64` values are modelled as `Int`;
* the `HashMap`s holding per-player runtime state are modelled as
  association lists (`List (Int × α)`) with a defaulting lookup, which
  matches `map.get(..).copied().unwrap_or(default)` and
  `map.insert(..)` / `entry(..).or_insert(..)`;
* every call to the thread-local RNG becomes an explicit parameter:
  `rng.gen::<f64>()` becomes a rational draw (validity: in `[0,1)`),
  `rng.gen_range(a..b)` a rational draw in `[a,b)`,
  `rng.gen_range(0..len)` a uniform index realised as `⌊u·len⌋` for a
  rational `u ∈ [0,1)`, and `rng.gen_range(lo..=hi)` an integer
  parameter with the range as a hypothesis;
* Rust panics (indexing an empty vector, `unwrap`) are modelled with
  `Option`: `none` is the crash.

Display-only fields that the engine never reads (team colours, player
birth dates, the formation/lineup machinery, the `sequence` field of
events, which is always the empty vector) are omitted.
-/

set_option allowUnsafeReducibility true
attribute [semireducible] Rat.add Rat.mul Rat.sub Rat.inv Rat.ofScientific
set_option maxRecDepth 100000

/-- `models/mod.rs` `Team`; only `name` is read by the engine. -/
structure Team where
  name : String
deriving DecidableEq, Repr

/-- `models/mod.rs` `Player`; the fields the engine reads. -/
structure Player where
  id : Int
  first_name : String
  last_name : String
  position_short : Option String
deriving DecidableEq, Repr

/-- `models/mod.rs` `PlayerAttributes`: exactly the integer skills that
`get_attr` can resolve; the remaining fields are never read. -/
structure PlayerAttributes where
  finishing : Int
  heading : Int
  long_shots : Int
  passing : Int
  tackling : Int
  technique : Int
  crossing : Int
  dribbling : Int
  composure : Int
  decisions : Int
  off_the_ball : Int
  positioning : Int
  vision : Int
  pace : Int
  strength : Int
  aggression : Int
  bravery : Int
  anticipation : Int
  concentration : Int
  marking : Int
  reflexes : Int
  handling : Int
  aerial_reach : Int
  one_on_ones : Int
  penalty_taking : Int
  free_kick_taking : Int
  corners : Int
  flair : Int
  stamina : Int
  work_rate : Int
deriving DecidableEq

/-- `models/mod.rs` `TeamStats`. -/
structure TeamStats where
  possession_pct : ℚ
  shots : Int
  shots_on_target : Int
  corners : Int
  fouls : Int
  yellow_cards : Int
  red_cards : Int
  saves : Int
  passes : Int
  tackles : Int
  offsides : Int
deriving DecidableEq, Repr

/-- `TeamStats::new()`. -/
def TeamStats.new : TeamStats :=
  { possession_pct := 50, shots := 0, shots_on_target := 0, corners := 0,
    fouls := 0, yellow_cards := 0, red_cards := 0, saves := 0, passes := 0,
    tackles := 0, offsides := 0 }

/-- `models/mod.rs` `MatchStats`. -/
structure MatchStats where
  home : TeamStats
  away : TeamStats
deriving DecidableEq, Repr

/-- `models/mod.rs` `Score`. -/
structure Score where
  home : Int
  away : Int
deriving DecidableEq, Repr

/-- `models/mod.rs` `BallPosition`. -/
structure BallPosition where
  x : ℚ
  y : ℚ
deriving DecidableEq, Repr

/-- `models/mod.rs` `SimulationEvent` (the `sequence` field is always
`vec![]` in the engine and is omitted). -/
structure SimulationEvent where
  event_type : String
  team : String
  primary_player : Option String
  secondary_player : Option String
  description : String
  x : ℚ
  y : ℚ
deriving DecidableEq, Repr

/-- `models/mod.rs` `SimulationTick`. -/
structure SimulationTick where
  minute : Int
  phase : String
  possession : String
  zone : String
  ball : BallPosition
  events : List SimulationEvent
  score : Score
  stats : MatchStats
  commentary : String
deriving DecidableEq, Repr

/-- Static engine inputs (the immutable part of `SimulationEngine`);
the two attribute `HashMap`s become functions to `Option`. -/
structure SimulationEngine where
  home_team : Team
  away_team : Team
  home_squad : List Player
  away_squad : List Player
  home_attrs : Int → Option PlayerAttributes
  away_attrs : Int → Option PlayerAttributes

/-- Defaulting lookup in an association list: models
`map.get(&k).copied().unwrap_or(d)`. -/
def getEntry {α : Type} (m : List (Int × α)) (k : Int) (d : α) : α :=
  match m with
  | [] => d
  | (k2, v) :: rest => if k2 = k then v else getEntry rest k d

/-- Insert-or-replace in an association list: models `map.insert(k, v)`
and writing through `map.entry(k).or_insert(..)`. -/
def setEntry {α : Type} (m : List (Int × α)) (k : Int) (v : α) : List (Int × α) :=
  match m with
  | [] => [(k, v)]
  | (k2, w) :: rest => if k2 = k then (k2, v) :: rest else (k2, w) :: setEntry rest k v

/-- The mutable runtime state of `SimulationEngine`. -/
structure EngineState where
  score : Score
  stats : MatchStats
  ball : BallPosition
  possession : String
  zone : String
  home_starters : List Player
  away_starters : List Player
  player_fatigue : List (Int × ℚ)
  player_yellow_cards : List (Int × Int)
  player_sent_off : List (Int × Bool)
deriving DecidableEq, Repr

/-- State as built by `SimulationEngine::new`. -/
def EngineState.init : EngineState :=
  { score := { home := 0, away := 0 },
    stats := { home := TeamStats.new, away := TeamStats.new },
    ball := { x := 50, y := 34 },
    possession := "home",
    zone := "mid",
    home_starters := [],
    away_starters := [],
    player_fatigue := [],
    player_yellow_cards := [],
    player_sent_off := [] }

/-- `format!("{} {}", p.first_name, p.last_name)`. -/
def fullName (p : Player) : String :=
  p.first_name ++ " " ++ p.last_name

/-- `get_attr`: resolve a named skill (defaulting to 10 when the player
has no attribute record or the name is unknown), then apply the fatigue
penalty `* (1.0 - fatigue * 0.25)`. -/
def attrField (a : PlayerAttributes) (attr : String) : Int :=
  if attr = "finishing" then a.finishing
  else if attr = "heading" then a.heading
  else if attr = "long_shots" then a.long_shots
  else if attr = "passing" then a.passing
  else if attr = "tackling" then a.tackling
  else if attr = "technique" then a.technique
  else if attr = "crossing" then a.crossing
  else if attr = "dribbling" then a.dribbling
  else if attr = "composure" then a.composure
  else if attr = "decisions" then a.decisions
  else if attr = "off_the_ball" then a.off_the_ball
  else if attr = "positioning" then a.positioning
  else if attr = "vision" then a.vision
  else if attr = "pace" then a.pace
  else if attr = "strength" then a.strength
  else if attr = "aggression" then a.aggression
  else if attr = "bravery" then a.bravery
  else if attr = "anticipation" then a.anticipation
  else if attr = "concentration" then a.concentration
  else if attr = "marking" then a.marking
  else if attr = "reflexes" then a.reflexes
  else if attr = "handling" then a.handling
  else if attr = "aerial_reach" then a.aerial_reach
  else if attr = "one_on_ones" then a.one_on_ones
  else if attr = "penalty_taking" then a.penalty_taking
  else if attr = "free_kick_taking" then a.free_kick_taking
  else if attr = "corners" then a.corners
  else if attr = "flair" then a.flair
  else if attr = "stamina" then a.stamina
  else if attr = "work_rate" then a.work_rate
  else 10

/-- `SimulationEngine::get_attr`. -/
def SimulationEngine.getAttr (e : SimulationEngine) (s : EngineState)
    (player_id : Int) (attr : String) : ℚ :=
  let base : ℚ :=
    match e.home_attrs player_id with
    | some a => (attrField a attr : ℚ)
    | none =>
      match e.away_attrs player_id with
      | some a => (attrField a attr : ℚ)
      | none => 10
  let fatigue := getEntry s.player_fatigue player_id 0
  base * (1 - fatigue * 0.25)

/-- The eligible pool used by both selectors: first 11 squad entries of
a side minus sent-off players. -/
def SimulationEngine.availablePlayers (e : SimulationEngine) (s : EngineState)
    (side : String) : List Player :=
  let squad := if side = "home" then e.home_squad else e.away_squad
  (squad.take 11).filter (fun p => !(getEntry s.player_sent_off p.id false))

/-- `SimulationEngine::pick_player`: the uniform index
`rng.gen_range(0..available.len())` is realised as `⌊u·len⌋` for a draw
`u ∈ [0,1)`; out-of-range indexing (empty pool) is the `none` crash. -/
def SimulationEngine.pickPlayer (e : SimulationEngine) (s : EngineState)
    (side : String) (u : ℚ) : Option Player :=
  let available := e.availablePlayers s side
  available.get? (⌊u * available.length⌋).toNat

/-- The subtraction loop in `pick_weighted_player`: walk the weights,
subtracting, returning the first player whose weight drives the residual
to `≤ 0`; `none` means the loop fell through. -/
def rouletteLoop : List Player → List ℚ → ℚ → Option Player
  | p :: ps, w :: ws, r => if r - w ≤ 0 then some p else rouletteLoop ps ws (r - w)
  | _, _, _ => none

/-- `SimulationEngine::pick_weighted_player`: weights are
`get_attr(p.id, attr).max(1.0)`, the draw is `u * total` for
`u ∈ [0,1)`, and the post-loop fallback is `available.last().unwrap()`
(`none` on an empty pool is the panic). -/
def SimulationEngine.pickWeightedPlayer (e : SimulationEngine) (s : EngineState)
    (side : String) (attr : String) (u : ℚ) : Option Player :=
  let available := e.availablePlayers s side
  let weights := available.map (fun p => max (e.getAttr s p.id attr) 1)
  let total := weights.sum
  match rouletteLoop available weights (u * total) with
  | some p => some p
  | none => available.getLast?

/-- `SimulationEngine::pick_goalkeeper`: first squad player whose
`position_short` is `"GK"`, falling back to `&squad[0]` (`none` models
the panic on an empty squad). Note: unlike the two selectors above this
lookup does NOT filter sent-off players. -/
def SimulationEngine.pickGoalkeeper (e : SimulationEngine) (side : String) :
    Option Player :=
  let squad := if side = "home" then e.home_squad else e.away_squad
  match squad.find? (fun p => p.position_short == some "GK") with
  | some p => some p
  | none => squad.head?

/-- `SimulationEngine::opponent`. -/
def opponent (side : String) : String :=
  if side = "home" then "away" else "home"

/-- `inc_stat`'s per-`TeamStats` dispatch on the stat name. -/
def TeamStats.inc (t : TeamStats) (stat : String) (amount : Int) : TeamStats :=
  if stat = "shots" then { t with shots := t.shots + amount }
  else if stat = "shots_on_target" then { t with shots_on_target := t.shots_on_target + amount }
  else if stat = "corners" then { t with corners := t.corners + amount }
  else if stat = "fouls" then { t with fouls := t.fouls + amount }
  else if stat = "yellow_cards" then { t with yellow_cards := t.yellow_cards + amount }
  else if stat = "red_cards" then { t with red_cards := t.red_cards + amount }
  else if stat = "saves" then { t with saves := t.saves + amount }
  else if stat = "passes" then { t with passes := t.passes + amount }
  else if stat = "tackles" then { t with tackles := t.tackles + amount }
  else if stat = "offsides" then { t with offsides := t.offsides + amount }
  else t

/-- `SimulationEngine::inc_stat`. -/
def EngineState.incStat (s : EngineState) (side : String) (stat : String)
    (amount : Int) : EngineState :=
  if side = "home" then
    { s with stats := { s.stats with home := s.stats.home.inc stat amount } }
  else
    { s with stats := { s.stats with away := s.stats.away.inc stat amount } }

/-- `SimulationEngine::is_attacking_third`. -/
def EngineState.isAttackingThird (s : EngineState) (side : String) : Bool :=
  if side = "home" then decide (s.ball.x > 70) else decide (s.ball.x < 30)

/-- `SimulationEngine::move_ball_forward` with the two draws explicit:
`delta = rng.gen_range(5.0..15.0)` and `dy = rng.gen_range(-8.0..8.0)`. -/
def EngineState.moveBallForward (s : EngineState) (side : String)
    (delta dy : ℚ) : EngineState :=
  let x := if side = "home" then min (s.ball.x + delta) 100 else max (s.ball.x - delta) 0
  let y := min (max (s.ball.y + dy) 0) 68
  { s with ball := { x := x, y := y } }

/-- `SimulationEngine::jitter_ball` with the two `±3` draws explicit. -/
def EngineState.jitterBall (s : EngineState) (dx dy : ℚ) : EngineState :=
  { s with ball := { x := min (max (s.ball.x + dx) 0) 100,
                     y := min (max (s.ball.y + dy) 0) 68 } }

/-- The six `rng` draws `resolve_shot` may consume, pre-drawn (all are
independent uniform `[0,1)` draws in the source). -/
structure ShotRand where
  pickU : ℚ
  blockRoll : ℚ
  blockCornerRoll : ℚ
  missRoll : ℚ
  goalRoll : ℚ
  saveCornerRoll : ℚ

/-- The straight-line part of `resolve_shot`, once the shooter and the
goalkeeper have been selected (in the source, the selections panic on
empty pools and everything after them is total). -/
def SimulationEngine.resolveShotCore (e : SimulationEngine) (s : EngineState)
    (side : String) (r : ShotRand) (shooter gk : Player) :
    EngineState × List SimulationEvent :=
  let shooterName := fullName shooter
  let finishing := e.getAttr s shooter.id "finishing"
  let composure := e.getAttr s shooter.id "composure"
  let opp := opponent side
  let gkName := fullName gk
  let s1 := s.incStat side "shots" 1
  if r.blockRoll < 0.25 then
    let ev : SimulationEvent :=
      { event_type := "shot_blocked", team := side,
        primary_player := some shooterName, secondary_player := none,
        description := shooterName ++ "\x27s shot is blocked!",
        x := s1.ball.x, y := s1.ball.y }
    if r.blockCornerRoll < 0.4 then
      let s2 := s1.incStat side "corners" 1
      let cornerTeamName := if side = "home" then e.home_team.name else e.away_team.name
      let ev2 : SimulationEvent :=
        { event_type := "corner", team := side,
          primary_player := none, secondary_player := none,
          description := "Corner kick to " ++ cornerTeamName,
          x := if side = "home" then 100 else 0, y := s2.ball.y }
      (s2, [ev, ev2])
    else
      (s1, [ev])
  else if r.missRoll < 0.40 - (finishing + composure) / 80 * 0.15 then
    let ev : SimulationEvent :=
      { event_type := "shot_off_target", team := side,
        primary_player := some shooterName, secondary_player := none,
        description := shooterName ++ " fires wide!",
        x := s1.ball.x, y := s1.ball.y }
    (s1, [ev])
  else
    let s2 := s1.incStat side "shots_on_target" 1
    if r.goalRoll < 0.25 + (finishing - 10) / 40 * 0.1 then
      let s3 :=
        if side = "home" then { s2 with score := { s2.score with home := s2.score.home + 1 } }
        else { s2 with score := { s2.score with away := s2.score.away + 1 } }
      let ev : SimulationEvent :=
        { event_type := "goal", team := side,
          primary_player := some shooterName, secondary_player := none,
          description := "GOAL! " ++ shooterName ++ " scores!",
          x := if side = "home" then 95 else 5, y := 34 }
      let s4 := { s3 with ball := { x := 50, y := 34 }, possession := opp }
      (s4, [ev])
    else
      let s3 := s2.incStat opp "saves" 1
      let ev : SimulationEvent :=
        { event_type := "save", team := opp,
          primary_player := some gkName, secondary_player := some shooterName,
          description := "Great save by " ++ gkName ++ "!",
          x := s3.ball.x, y := s3.ball.y }
      let s4 := if r.saveCornerRoll < 0.5 then s3.incStat side "corners" 1 else s3
      (s4, [ev])

/-- `SimulationEngine::resolve_shot`: select the shooter (weighted by
finishing) and the opposing goalkeeper, then run the probability
cascade. -/
def SimulationEngine.resolveShot (e : SimulationEngine) (s : EngineState)
    (side : String) (r : ShotRand) : Option (EngineState × List SimulationEvent) := do
  let shooter ← e.pickWeightedPlayer s side "finishing" r.pickU
  let gk ← e.pickGoalkeeper (opponent side)
  some (e.resolveShotCore s side r shooter gk)

/-- The four `rng` draws `simulate_foul` may consume. -/
structure FoulRand where
  foulerU : ℚ
  fouledU : ℚ
  cardRoll : ℚ
  redRoll : ℚ

/-- The straight-line part of `simulate_foul`, once the fouler and the
fouled player have been selected. -/
def SimulationEngine.simulateFoulCore (e : SimulationEngine) (s : EngineState)
    (side : String) (r : FoulRand) (fouler fouled : Player) :
    EngineState × List SimulationEvent :=
  let opp := opponent side
  let foulerName := fullName fouler
  let fouledName := fullName fouled
  let s1 := s.incStat opp "fouls" 1
  let evFoul : SimulationEvent :=
    { event_type := "foul", team := opp,
      primary_player := some foulerName, secondary_player := some fouledName,
      description := "Foul by " ++ foulerName,
      x := s1.ball.x, y := s1.ball.y }
  let aggression := e.getAttr s1 fouler.id "aggression"
  let cardChance := 0.13 + (aggression - 10) / 20 * 0.07
  let (s2, cardEvents) :=
    if r.cardRoll < cardChance then
      let prevYellows := getEntry s1.player_yellow_cards fouler.id 0
      if prevYellows ≥ 1 then
        let sA := { s1 with player_sent_off := setEntry s1.player_sent_off fouler.id true }
        let sB := (sA.incStat opp "yellow_cards" 1).incStat opp "red_cards" 1
        let ev : SimulationEvent :=
          { event_type := "second_yellow", team := opp,
            primary_player := some foulerName, secondary_player := none,
            description := "Second yellow card! " ++ foulerName ++ " is sent off!",
            x := sB.ball.x, y := sB.ball.y }
        (sB, [ev])
      else
        let newYellows := setEntry s1.player_yellow_cards fouler.id (prevYellows + 1)
        let sA := { s1 with player_yellow_cards := newYellows }
        let sB := sA.incStat opp "yellow_cards" 1
        let ev : SimulationEvent :=
          { event_type := "yellow_card", team := opp,
            primary_player := some foulerName, secondary_player := none,
            description := "Yellow card for " ++ foulerName,
            x := sB.ball.x, y := sB.ball.y }
        (sB, [ev])
    else
      (s1, [])
  let (s3, redEvents) :=
    if r.redRoll < 0.005 then
      let sA := { s2 with player_sent_off := setEntry s2.player_sent_off fouler.id true }
      let sB := sA.incStat opp "red_cards" 1
      let ev : SimulationEvent :=
        { event_type := "red_card", team := opp,
          primary_player := some foulerName, secondary_player := none,
          description := "Straight red card for " ++ foulerName ++ "!",
          x := sB.ball.x, y := sB.ball.y }
      (sB, [ev])
    else
      (s2, [])
  (s3, evFoul :: (cardEvents ++ redEvents))

/-- `SimulationEngine::simulate_foul`: fouler weighted by aggression
from the opposing side, fouled uniformly from the attacking side, then
the card logic. -/
def SimulationEngine.simulateFoul (e : SimulationEngine) (s : EngineState)
    (side : String) (r : FoulRand) : Option (EngineState × List SimulationEvent) := do
  let fouler ← e.pickWeightedPlayer s (opponent side) "aggression" r.foulerU
  let fouled ← e.pickPlayer s side r.fouledU
  some (e.simulateFoulCore s side r fouler fouled)

/-- `SimulationEngine::build_commentary`. -/
def SimulationEngine.buildCommentary (e : SimulationEngine) (s : EngineState)
    (events : List SimulationEvent) (minute : Int) : String :=
  if events.isEmpty then
    let possTeam := if s.possession = "home" then e.home_team.name else e.away_team.name
    toString minute ++ "\x27 - " ++ possTeam ++ " keep possession in midfield."
  else
    String.intercalate " " (events.map (fun ev => toString minute ++ "\x27 - " ++ ev.description))

/-- The fatigue update for one starter inside the `minute > 60` loop of
`simulate_minute`. -/
def SimulationEngine.fatigueStep (e : SimulationEngine) (s : EngineState)
    (p : Player) : EngineState :=
  let stamina := e.getAttr s p.id "stamina"
  let rate := 0.01 * max (1 - stamina / 40) 0.2
  let f := getEntry s.player_fatigue p.id 0
  { s with player_fatigue := setEntry s.player_fatigue p.id (min (f + rate) 1) }

/-- The whole `minute > 60` fatigue loop: home starters chained with
away starters. -/
def SimulationEngine.updateFatigue (e : SimulationEngine) (s : EngineState) :
    EngineState :=
  (s.home_starters ++ s.away_starters).foldl e.fatigueStep s

/-- The background-passing loop: `pass_count` iterations of
`inc_stat(side, "passes", 1)` followed by `jitter_ball()`; iteration `i`
consumes jitter draw `jit i`. -/
def runPasses (side : String) (jit : Nat → ℚ × ℚ) : Nat → Nat → EngineState → EngineState
  | _, 0, s => s
  | i, n + 1, s =>
    runPasses side jit (i + 1) n ((s.incStat side "passes" 1).jitterBall (jit i).1 (jit i).2)

/-- All `rng` draws one call of `simulate_minute` may consume. -/
structure MinuteRand where
  passCount : Nat
  jitter : Nat → ℚ × ℚ
  moveRoll : ℚ
  moveDelta : ℚ
  moveDy : ℚ
  shotRoll : ℚ
  shot : ShotRand
  foulRoll : ℚ
  foul : FoulRand
  tackleRoll : ℚ
  tackleU : ℚ
  offsideRoll : ℚ
  flipRoll : ℚ

/-- The defensive-action branch of the decision tree, once the tackler
has been selected. -/
def SimulationEngine.tackleCore (s : EngineState) (side : String) (tackler : Player) :
    EngineState × List SimulationEvent :=
  let opp := opponent side
  let tacklerName := fullName tackler
  let sA := s.incStat opp "tackles" 1
  let ev : SimulationEvent :=
    { event_type := "tackle", team := opp,
      primary_player := some tacklerName, secondary_player := none,
      description := "Good tackle by " ++ tacklerName,
      x := sA.ball.x, y := sA.ball.y }
  ({ sA with possession := opp }, [ev])

/-- The offside branch of the decision tree. -/
def SimulationEngine.offsideCore (s : EngineState) (side : String) :
    EngineState × List SimulationEvent :=
  let sA := s.incStat side "offsides" 1
  let ev : SimulationEvent :=
    { event_type := "offside", team := side,
      primary_player := none, secondary_player := none,
      description := "Offside! The flag is up.",
      x := sA.ball.x, y := sA.ball.y }
  ({ sA with possession := opponent side }, [ev])

/-- The mutually exclusive decision tree of `simulate_minute` (step 4):
shot → foul → tackle → offside, first matching branch only. -/
def SimulationEngine.minuteEvents (e : SimulationEngine) (s3 : EngineState)
    (side : String) (inAttacking : Bool) (r : MinuteRand) :
    Option (EngineState × List SimulationEvent) :=
  let shotChance : ℚ := if inAttacking then 0.15 else 0.03
  if r.shotRoll < shotChance then
    e.resolveShot s3 side r.shot
  else if r.foulRoll < 0.08 then
    e.simulateFoul s3 side r.foul
  else if r.tackleRoll < 0.20 then do
    let tackler ← e.pickWeightedPlayer s3 (opponent side) "tackling" r.tackleU
    some (SimulationEngine.tackleCore s3 side tackler)
  else if inAttacking ∧ r.offsideRoll < 0.06 then
    some (SimulationEngine.offsideCore s3 side)
  else
    some (s3, [])

/-- Steps 5-8 of `simulate_minute`: possession-flip roll, zone update,
phase classification, commentary, and the tick snapshot. -/
def SimulationEngine.finishMinute (e : SimulationEngine) (minute : Int)
    (side : String) (r : MinuteRand) (p : EngineState × List SimulationEvent) :
    EngineState × SimulationTick :=
  let s4 := p.1
  let events := p.2
  let s5 := if r.flipRoll < 0.35 then { s4 with possession := opponent s4.possession } else s4
  let zone :=
    if s5.ball.x < 33 then (if s5.possession = "home" then "def_home" else "att_away")
    else if s5.ball.x > 67 then (if s5.possession = "home" then "att_home" else "def_away")
    else "mid"
  let s6 := { s5 with zone := zone }
  let phase :=
    if events.any (fun ev => ev.event_type == "goal" || ev.event_type == "shot_blocked"
        || ev.event_type == "save") then
      "attack_" ++ side
    else
      "open_play"
  let commentary := e.buildCommentary s6 events minute
  (s6, { minute := minute, phase := phase, possession := s6.possession,
         zone := s6.zone, ball := s6.ball, events := events,
         score := s6.score, stats := s6.stats, commentary := commentary })

/-- `SimulationEngine::simulate_minute`. -/
def SimulationEngine.simulateMinute (e : SimulationEngine) (s0 : EngineState)
    (minute : Int) (r : MinuteRand) : Option (EngineState × SimulationTick) := do
  let side := s0.possession
  let s1 := if minute > 60 then e.updateFatigue s0 else s0
  let s2 := runPasses side r.jitter 0 r.passCount s1
  let s3 := if r.moveRoll < 0.6 then s2.moveBallForward side r.moveDelta r.moveDy else s2
  let inAttacking := s3.isAttackingThird side
  let p ← e.minuteEvents s3 side inAttacking r
  some (e.finishMinute minute side r p)

/-- Sequentially simulate a list of (minute, draws) pairs, threading the
state and collecting the ticks (the two `for minute in ..` loops of
`simulate`). -/
def SimulationEngine.runMinutes (e : SimulationEngine) :
    EngineState → List (Int × MinuteRand) → Option (EngineState × List SimulationTick)
  | s, [] => some (s, [])
  | s, (m, r) :: rest => do
    let (s1, t) ← e.simulateMinute s m r
    let (s2, ts) ← e.runMinutes s1 rest
    some (s2, t :: ts)

/-- The synthetic half-time marker tick. -/
def SimulationEngine.halfTimeTick (e : SimulationEngine) (s : EngineState) :
    SimulationTick :=
  { minute := 45, phase := "half_time", possession := s.possession, zone := "mid",
    ball := { x := 50, y := 34 }, events := [], score := s.score, stats := s.stats,
    commentary := "Half time! " ++ e.home_team.name ++ " " ++ toString s.score.home
      ++ " - " ++ toString s.score.away ++ " " ++ e.away_team.name }

/-- The synthetic full-time marker tick. -/
def SimulationEngine.fullTimeTick (e : SimulationEngine) (s : EngineState) :
    SimulationTick :=
  { minute := 90, phase := "full_time", possession := s.possession, zone := "mid",
    ball := { x := 50, y := 34 }, events := [], score := s.score, stats := s.stats,
    commentary := "Full time! " ++ e.home_team.name ++ " " ++ toString s.score.home
      ++ " - " ++ toString s.score.away ++ " " ++ e.away_team.name }

/-- First-half schedule: minutes `1..=(45+ih1)`, consuming oracle draws
`o 0, o 1, ...` in order. -/
def firstHalfSchedule (ih1 : Nat) (o : Nat → MinuteRand) : List (Int × MinuteRand) :=
  (List.range (45 + ih1)).map (fun i : Nat => ((i + 1 : Int), o i))

/-- Second-half schedule: minutes `46..=(90+ih2)`, consuming the oracle
where the first half left off. -/
def secondHalfSchedule (ih1 ih2 : Nat) (o : Nat → MinuteRand) : List (Int × MinuteRand) :=
  (List.range (45 + ih2)).map (fun i : Nat => ((i + 46 : Int), o (45 + ih1 + i)))

/-- `f64::round`: round half away from zero. -/
def f64round (q : ℚ) : ℚ :=
  if 0 ≤ q then ((⌊q + 1/2⌋ : ℤ) : ℚ) else ((-⌊-q + 1/2⌋ : ℤ) : ℚ)

/-- `if let Some(last) = ticks.last_mut() { last.stats = st }`. -/
def setLastStats : List SimulationTick → MatchStats → List SimulationTick
  | [], _ => []
  | [t], st => [{ t with stats := st }]
  | t :: t2 :: ts, st => t :: setLastStats (t2 :: ts) st

/-- The state at kickoff: `new()`'s state with the starters selected
and ball/possession reset for the first half. -/
def SimulationEngine.startState (e : SimulationEngine) : EngineState :=
  { EngineState.init with
    home_starters := e.home_squad.take 11,
    away_starters := e.away_squad.take 11,
    ball := { x := 50, y := 34 },
    possession := "home" }

/-- The full pre-postprocessing tick list: first half, half-time marker,
second half, full-time marker. -/
def combinedTicks (e : SimulationEngine) (s1 : EngineState) (ts1 : List SimulationTick)
    (s2 : EngineState) (ts2 : List SimulationTick) : List SimulationTick :=
  ts1 ++ [e.halfTimeTick s1] ++ ts2 ++ [e.fullTimeTick s2]

/-- The end-of-match possession post-processing: home share of ticks,
rounded; away gets the complement. -/
def finalStatsOf (e : SimulationEngine) (s2 : EngineState)
    (base : List SimulationTick) : MatchStats :=
  let total : ℚ := (base.length : ℚ)
  let homePossMin : ℚ := ((base.filter (fun t => t.possession == "home")).length : ℚ)
  let homePct := f64round (homePossMin / total * 100)
  { home := { s2.stats.home with possession_pct := homePct },
    away := { s2.stats.away with possession_pct := 100 - homePct } }

/-- The state reset at half time: ball back to the centre spot and
possession to the away side. -/
def secondHalfState (s1 : EngineState) : EngineState :=
  { s1 with ball := { x := 50, y := 34 }, possession := "away" }

/-- `SimulationEngine::simulate`.  The two injury-time draws
`rng.gen_range(1..=4)` and `rng.gen_range(1..=5)` are the parameters
`ih1`, `ih2`; all per-minute draws come from the oracle `o`. -/
def SimulationEngine.simulate (e : SimulationEngine) (ih1 ih2 : Nat)
    (o : Nat → MinuteRand) : Option (List SimulationTick) := do
  let s0 := e.startState
  let (s1, ts1) ← e.runMinutes s0 (firstHalfSchedule ih1 o)
  let s1b := secondHalfState s1
  let (s2, ts2) ← e.runMinutes s1b (secondHalfSchedule ih1 ih2 o)
  let ticks := combinedTicks e s1 ts1 s2 ts2
  some (setLastStats ticks (finalStatsOf e s2 ticks))

/-- A `rng.gen::<f64>()` draw lies in `[0,1)`. -/
def ValidRoll (q : ℚ) : Prop := 0 ≤ q ∧ q < 1

/-- Validity of the pre-drawn randomness for `resolve_shot`. -/
def ValidShotRand (r : ShotRand) : Prop :=
  ValidRoll r.pickU ∧ ValidRoll r.blockRoll ∧ ValidRoll r.blockCornerRoll ∧
  ValidRoll r.missRoll ∧ ValidRoll r.goalRoll ∧ ValidRoll r.saveCornerRoll

/-- Validity of the pre-drawn randomness for `simulate_foul`. -/
def ValidFoulRand (r : FoulRand) : Prop :=
  ValidRoll r.foulerU ∧ ValidRoll r.fouledU ∧ ValidRoll r.cardRoll ∧ ValidRoll r.redRoll

/-- Validity of one minute's pre-drawn randomness: each field lies in
the range of the `rng` call it replaces. -/
def ValidMinuteRand (r : MinuteRand) : Prop :=
  3 ≤ r.passCount ∧ r.passCount ≤ 8 ∧
  (∀ i, -3 ≤ (r.jitter i).1 ∧ (r.jitter i).1 < 3 ∧ -3 ≤ (r.jitter i).2 ∧ (r.jitter i).2 < 3) ∧
  ValidRoll r.moveRoll ∧ 5 ≤ r.moveDelta ∧ r.moveDelta < 15 ∧
  -8 ≤ r.moveDy ∧ r.moveDy < 8 ∧
  ValidRoll r.shotRoll ∧ ValidShotRand r.shot ∧
  ValidRoll r.foulRoll ∧ ValidFoulRand r.foul ∧
  ValidRoll r.tackleRoll ∧ ValidRoll r.tackleU ∧
  ValidRoll r.offsideRoll ∧ ValidRoll r.flipRoll

/-- The intermediate state of `simulate_minute` after fatigue update,
background passing and the optional forward ball move. -/
def SimulationEngine.midState (e : SimulationEngine) (s0 : EngineState) (minute : Int)
    (r : MinuteRand) : EngineState :=
  if r.moveRoll < 0.6 then
    (runPasses s0.possession r.jitter 0 r.passCount
      (if minute > 60 then e.updateFatigue s0 else s0)).moveBallForward s0.possession
        r.moveDelta r.moveDy
  else
    runPasses s0.possession r.jitter 0 r.passCount
      (if minute > 60 then e.updateFatigue s0 else s0)

/-! ## Statement helpers -/

/-- The score entry of a side (`"home"` selects `home`, anything else
selects `away`, matching every `if side == "home"` dispatch in the
engine). -/
def Score.ofSide (sc : Score) (side : String) : Int :=
  if side = "home" then sc.home else sc.away

/-- The stats entry of a side. -/
def MatchStats.ofSide (st : MatchStats) (side : String) : TeamStats :=
  if side = "home" then st.home else st.away

/-- Number of goal events for a team in an event list. -/
def goalCount (team : String) (evts : List SimulationEvent) : Int :=
  ((evts.filter (fun ev => ev.event_type == "goal" && ev.team == team)).length : Int)

/-- Number of goal events for a team across a tick list. -/
def goalsIn (team : String) (ts : List SimulationTick) : Int :=
  (ts.map (fun t => goalCount team t.events)).sum

/-- The pitch bounds of §3: `0 ≤ x ≤ 100`, `0 ≤ y ≤ 68`. -/
def InBounds (b : BallPosition) : Prop :=
  0 ≤ b.x ∧ b.x ≤ 100 ∧ 0 ≤ b.y ∧ b.y ≤ 68

/-- The event types whose `primary_player` is produced by one of the
two sent-off-filtering selectors (`pick_player`/`pick_weighted_player`);
`save` is excluded because its primary player comes from
`pick_goalkeeper`, and `corner`/`offside` carry no primary player. -/
def actorEventTypes : List String :=
  ["goal", "shot_blocked", "shot_off_target", "foul", "yellow_card",
   "second_yellow", "red_card", "tackle"]

/-- Fatigue of a player as the engine reads it. -/
def EngineState.fatigueOf (s : EngineState) (id : Int) : ℚ :=
  getEntry s.player_fatigue id 0

/-- Sent-off flag of a player as the engine reads it. -/
def EngineState.sentOff (s : EngineState) (id : Int) : Bool :=
  getEntry s.player_sent_off id false

/-- Eligibility in the §4.2 sense: among the first 11 squad entries of
one of the two sides and not sent off. -/
def EligibleIn (e : SimulationEngine) (s : EngineState) (p : Player) : Prop :=
  (p ∈ e.home_squad.take 11 ∨ p ∈ e.away_squad.take 11) ∧ s.sentOff p.id = false

/-- All first-11 full names (both sides) are pairwise distinct. -/
def DistinctNames (e : SimulationEngine) : Prop :=
  ((e.home_squad.take 11 ++ e.away_squad.take 11).map fullName).Nodup

/-- Each tick's score snapshot equals the previous snapshot plus the
goals in its own events (base = score before the first tick). -/
def ScoreLinked (base : Score) : List SimulationTick → Prop
  | [] => True
  | t :: rest =>
    t.score.home = base.home + goalCount "home" t.events ∧
    t.score.away = base.away + goalCount "away" t.events ∧
    ScoreLinked t.score rest

/-- Score after a tick list (base when the list is empty). -/
def lastScoreD (ts : List SimulationTick) (b : Score) : Score :=
  ((ts.getLast?).map (fun t => t.score)).getD b

/-! ## A concrete worked match

Two eleven-player squads with pairwise-distinct names and no attribute
records (so every attribute resolves to the default 10).  The scripted
oracle makes the away goalkeeper commit a straight-red foul in minute 1,
then credits him with a save in minute 2 (the `pick_goalkeeper` path),
a tackle by the first available away outfielder in minute 3, and an
away goal in minute 51; every other minute is quiet. -/

/-- Build a squad player. -/
def mkP (n : Int) (fn ln : String) (pos : Option String) : Player :=
  { id := n, first_name := fn, last_name := ln, position_short := pos }

def exHomeSquad : List Player :=
  [mkP 1 "Hugo" "Keeper" (some "GK"), mkP 2 "Hal" "Back" (some "LB"),
   mkP 3 "Hank" "Stone" (some "CB"), mkP 4 "Hector" "Wall" (some "CB"),
   mkP 5 "Harry" "Flank" (some "RB"), mkP 6 "Henry" "Wing" (some "LM"),
   mkP 7 "Hans" "Motor" (some "CM"), mkP 8 "Horst" "Pivot" (some "CM"),
   mkP 9 "Hamid" "Runner" (some "RM"), mkP 10 "Hiro" "Striker" (some "ST"),
   mkP 11 "Habib" "Finisher" (some "ST")]

def exAwaySquad : List Player :=
  [mkP 21 "Bob" "Glove" (some "GK"), mkP 22 "Ben" "Fender" (some "LB"),
   mkP 23 "Bill" "Rock" (some "CB"), mkP 24 "Brad" "Tower" (some "CB"),
   mkP 25 "Bart" "Edge" (some "RB"), mkP 26 "Boris" "Side" (some "LM"),
   mkP 27 "Blake" "Engine" (some "CM"), mkP 28 "Bruno" "Anchor" (some "CM"),
   mkP 29 "Brett" "Dash" (some "RM"), mkP 30 "Basil" "Target" (some "ST"),
   mkP 31 "Bjorn" "Poacher" (some "ST")]

def exEngine : SimulationEngine :=
  { home_team := { name := "Harbor FC" }, away_team := { name := "Borough United" },
    home_squad := exHomeSquad, away_squad := exAwaySquad,
    home_attrs := fun _ => none, away_attrs := fun _ => none }

/-- Draws that fire no branch of the decision tree. -/
def quietShot : ShotRand :=
  { pickU := 0.99, blockRoll := 0.99, blockCornerRoll := 0.99,
    missRoll := 0.99, goalRoll := 0.99, saveCornerRoll := 0.99 }

def quietFoul : FoulRand :=
  { foulerU := 0.99, fouledU := 0.99, cardRoll := 0.99, redRoll := 0.99 }

def quietMinute : MinuteRand :=
  { passCount := 3, jitter := fun _ => (0, 0), moveRoll := 0.99,
    moveDelta := 7, moveDy := 0, shotRoll := 0.99, shot := quietShot,
    foulRoll := 0.99, foul := quietFoul, tackleRoll := 0.99, tackleU := 0.99,
    offsideRoll := 0.99, flipRoll := 0.99 }

/-- A foul by the first available opponent (the away goalkeeper) whose
independent straight-red roll fires. -/
def redFoulRand : FoulRand :=
  { foulerU := 0, fouledU := 0, cardRoll := 0.99, redRoll := 0 }

def redFoulMinute : MinuteRand :=
  { quietMinute with foulRoll := 0, foul := redFoulRand }

/-- A shot that is saved (no branch fires after the block check). -/
def savePickShot : ShotRand :=
  { quietShot with pickU := 0 }

def saveShotMinute : MinuteRand :=
  { quietMinute with shotRoll := 0, shot := savePickShot }

def tackleMinute : MinuteRand :=
  { quietMinute with tackleRoll := 0, tackleU := 0 }

/-- A shot whose goal roll fires. -/
def goalPickShot : ShotRand :=
  { quietShot with pickU := 0, goalRoll := 0 }

def goalShotMinute : MinuteRand :=
  { quietMinute with shotRoll := 0, shot := goalPickShot }

def exOracle (n : Nat) : MinuteRand :=
  if n = 0 then redFoulMinute
  else if n = 1 then saveShotMinute
  else if n = 2 then tackleMinute
  else if n = 50 then goalShotMinute
  else quietMinute

/-- The tick list of the worked match (one injury minute per half). -/
def exTicks : List SimulationTick :=
  (exEngine.simulate 1 1 exOracle).getD []

def blankTick : SimulationTick :=
  { minute := 0, phase := "", possession := "", zone := "",
    ball := { x := 0, y := 0 }, events := [], score := { home := 0, away := 0 },
    stats := { home := TeamStats.new, away := TeamStats.new }, commentary := "" }

/-- The tick of the worked match at a given index. -/
def cexTickAt (k : Nat) : SimulationTick :=
  (exTicks.get? k).getD blankTick

/-- The straight-red event of minute 1 of the worked match. -/
def cexRedCardEvent : SimulationEvent :=
  { event_type := "red_card", team := "away",
    primary_player := some "Bob Glove", secondary_player := none,
    description := "Straight red card for Bob Glove!", x := 50, y := 34 }

/-- The tackle event of minute 3 of the worked match. -/
def cexTackleEvent : SimulationEvent :=
  { event_type := "tackle", team := "away",
    primary_player := some "Ben Fender", secondary_player := none,
    description := "Good tackle by Ben Fender", x := 50, y := 34 }

def bobGlove : Player := mkP 21 "Bob" "Glove" (some "GK")

def hugoKeeper : Player := mkP 1 "Hugo" "Keeper" (some "GK")

/-- A `resolve_shot` call whose goal roll fires. -/
def cexShotPair : EngineState × List SimulationEvent :=
  (exEngine.resolveShot exEngine.startState "home" goalPickShot).getD
    (exEngine.startState, [])

/-- A state in which the away goalkeeper already holds one yellow. -/
def cexFoulState : EngineState :=
  { exEngine.startState with player_yellow_cards := [(21, 1)] }

/-- Foul draws: first opponent fouls, card roll fires, red roll does not. -/
def cexFoulRand : FoulRand :=
  { foulerU := 0, fouledU := 0, cardRoll := 0, redRoll := 0.99 }

def cexFoulPair : EngineState × List SimulationEvent :=
  (exEngine.simulateFoul cexFoulState "home" cexFoulRand).getD (cexFoulState, [])

/-- A quiet minute after the hour, for the fatigue formula. -/
def cexMinutePair : EngineState × SimulationTick :=
  (exEngine.simulateMinute exEngine.startState 61 quietMinute).getD
    (exEngine.startState, blankTick)

/-! ## Association-list lemmas -/

theorem getEntry_setEntry_self {α : Type} (m : List (Int × α)) (k : Int) (v : α) (d : α) :
    getEntry (setEntry m k v) k d = v := by
  induction m with
  | nil => simp [getEntry, setEntry]
  | cons hd tl ih =>
    obtain ⟨k2, w⟩ := hd
    by_cases hk : k2 = k
    · simp [getEntry, setEntry, hk]
    · simp [getEntry, setEntry, hk, ih]

theorem getEntry_setEntry_ne {α : Type} (m : List (Int × α)) (k k2 : Int) (v : α) (d : α)
    (h : k ≠ k2) : getEntry (setEntry m k v) k2 d = getEntry m k2 d := by
  induction m with
  | nil => simp [getEntry, setEntry, h]
  | cons hd tl ih =>
    obtain ⟨k3, w⟩ := hd
    by_cases hk : k3 = k
    · subst hk
      simp [getEntry, setEntry, h]
    · simp [getEntry, setEntry, hk, ih]

/-! ## Field-preservation lemmas for the primitive state operations -/

@[simp] theorem incStat_score (s : EngineState) (a b : String) (n : Int) :
    (s.incStat a b n).score = s.score := by
  unfold EngineState.incStat; split <;> rfl

@[simp] theorem incStat_ball (s : EngineState) (a b : String) (n : Int) :
    (s.incStat a b n).ball = s.ball := by
  unfold EngineState.incStat; split <;> rfl

@[simp] theorem incStat_possession (s : EngineState) (a b : String) (n : Int) :
    (s.incStat a b n).possession = s.possession := by
  unfold EngineState.incStat; split <;> rfl

@[simp] theorem incStat_fatigue (s : EngineState) (a b : String) (n : Int) :
    (s.incStat a b n).player_fatigue = s.player_fatigue := by
  unfold EngineState.incStat; split <;> rfl

@[simp] theorem incStat_yellow (s : EngineState) (a b : String) (n : Int) :
    (s.incStat a b n).player_yellow_cards = s.player_yellow_cards := by
  unfold EngineState.incStat; split <;> rfl

@[simp] theorem incStat_sent (s : EngineState) (a b : String) (n : Int) :
    (s.incStat a b n).player_sent_off = s.player_sent_off := by
  unfold EngineState.incStat; split <;> rfl

@[simp] theorem incStat_home_starters (s : EngineState) (a b : String) (n : Int) :
    (s.incStat a b n).home_starters = s.home_starters := by
  unfold EngineState.incStat; split <;> rfl

@[simp] theorem incStat_away_starters (s : EngineState) (a b : String) (n : Int) :
    (s.incStat a b n).away_starters = s.away_starters := by
  unfold EngineState.incStat; split <;> rfl

@[simp] theorem jitterBall_score (s : EngineState) (dx dy : ℚ) :
    (s.jitterBall dx dy).score = s.score := rfl

@[simp] theorem jitterBall_stats (s : EngineState) (dx dy : ℚ) :
    (s.jitterBall dx dy).stats = s.stats := rfl

@[simp] theorem jitterBall_possession (s : EngineState) (dx dy : ℚ) :
    (s.jitterBall dx dy).possession = s.possession := rfl

@[simp] theorem jitterBall_fatigue (s : EngineState) (dx dy : ℚ) :
    (s.jitterBall dx dy).player_fatigue = s.player_fatigue := rfl

@[simp] theorem jitterBall_yellow (s : EngineState) (dx dy : ℚ) :
    (s.jitterBall dx dy).player_yellow_cards = s.player_yellow_cards := rfl

@[simp] theorem jitterBall_sent (s : EngineState) (dx dy : ℚ) :
    (s.jitterBall dx dy).player_sent_off = s.player_sent_off := rfl

@[simp] theorem jitterBall_home_starters (s : EngineState) (dx dy : ℚ) :
    (s.jitterBall dx dy).home_starters = s.home_starters := rfl

@[simp] theorem jitterBall_away_starters (s : EngineState) (dx dy : ℚ) :
    (s.jitterBall dx dy).away_starters = s.away_starters := rfl

@[simp] theorem moveBallForward_score (s : EngineState) (a : String) (d1 d2 : ℚ) :
    (s.moveBallForward a d1 d2).score = s.score := rfl

@[simp] theorem moveBallForward_stats (s : EngineState) (a : String) (d1 d2 : ℚ) :
    (s.moveBallForward a d1 d2).stats = s.stats := rfl

@[simp] theorem moveBallForward_possession (s : EngineState) (a : String) (d1 d2 : ℚ) :
    (s.moveBallForward a d1 d2).possession = s.possession := rfl

@[simp] theorem moveBallForward_fatigue (s : EngineState) (a : String) (d1 d2 : ℚ) :
    (s.moveBallForward a d1 d2).player_fatigue = s.player_fatigue := rfl

@[simp] theorem moveBallForward_yellow (s : EngineState) (a : String) (d1 d2 : ℚ) :
    (s.moveBallForward a d1 d2).player_yellow_cards = s.player_yellow_cards := rfl

@[simp] theorem moveBallForward_sent (s : EngineState) (a : String) (d1 d2 : ℚ) :
    (s.moveBallForward a d1 d2).player_sent_off = s.player_sent_off := rfl

@[simp] theorem moveBallForward_home_starters (s : EngineState) (a : String) (d1 d2 : ℚ) :
    (s.moveBallForward a d1 d2).home_starters = s.home_starters := rfl

@[simp] theorem moveBallForward_away_starters (s : EngineState) (a : String) (d1 d2 : ℚ) :
    (s.moveBallForward a d1 d2).away_starters = s.away_starters := rfl

/-! ## Selector lemmas -/

theorem getAttr_congr (e : SimulationEngine) {s1 s2 : EngineState} (id : Int) (a : String)
    (h : s1.player_fatigue = s2.player_fatigue) :
    e.getAttr s1 id a = e.getAttr s2 id a := by
  unfold SimulationEngine.getAttr
  rw [h]

theorem availablePlayers_congr (e : SimulationEngine) {s1 s2 : EngineState} (side : String)
    (h : s1.player_sent_off = s2.player_sent_off) :
    e.availablePlayers s1 side = e.availablePlayers s2 side := by
  unfold SimulationEngine.availablePlayers
  rw [h]

theorem rouletteLoop_mem {ps : List Player} {ws : List ℚ} {r : ℚ} {p : Player}
    (h : rouletteLoop ps ws r = some p) : p ∈ ps := by
  induction ps generalizing ws r with
  | nil => cases ws <;> simp [rouletteLoop] at h
  | cons hd tl ih =>
    cases ws with
    | nil => simp [rouletteLoop] at h
    | cons w ws2 =>
      unfold rouletteLoop at h
      by_cases hr : r - w ≤ 0
      · simp [hr] at h
        simp [h]
      · simp [hr] at h
        exact List.mem_cons_of_mem _ (ih h)

theorem pickPlayer_mem {e : SimulationEngine} {s : EngineState} {side : String} {u : ℚ}
    {p : Player} (h : e.pickPlayer s side u = some p) :
    p ∈ e.availablePlayers s side := by
  unfold SimulationEngine.pickPlayer at h
  exact List.get?_mem h

theorem pickWeightedPlayer_mem {e : SimulationEngine} {s : EngineState}
    {side attr : String} {u : ℚ} {p : Player}
    (h : e.pickWeightedPlayer s side attr u = some p) :
    p ∈ e.availablePlayers s side := by
  unfold SimulationEngine.pickWeightedPlayer at h
  simp only [] at h
  split at h
  next q hloop =>
    simp only [Option.some.injEq] at h
    subst h
    exact rouletteLoop_mem hloop
  next hloop =>
    exact List.mem_of_mem_getLast? h

theorem mem_availablePlayers_eligible {e : SimulationEngine} {s : EngineState}
    {side : String} {p : Player} (h : p ∈ e.availablePlayers s side) :
    EligibleIn e s p := by
  unfold SimulationEngine.availablePlayers at h
  by_cases hs : side = "home"
  · simp [hs] at h
    exact ⟨Or.inl h.1, by simpa [EngineState.sentOff] using h.2⟩
  · simp [hs] at h
    exact ⟨Or.inr h.1, by simpa [EngineState.sentOff] using h.2⟩

/-! ## Preservation through the background-activity steps -/

theorem runPasses_score (side : String) (jit : Nat → ℚ × ℚ) :
    ∀ n i s, (runPasses side jit i n s).score = s.score := by
  intro n
  induction n with
  | zero => intro i s; rfl
  | succ m ih => intro i s; simp [runPasses, ih]

theorem runPasses_possession (side : String) (jit : Nat → ℚ × ℚ) :
    ∀ n i s, (runPasses side jit i n s).possession = s.possession := by
  intro n
  induction n with
  | zero => intro i s; rfl
  | succ m ih => intro i s; simp [runPasses, ih]

theorem runPasses_fatigue (side : String) (jit : Nat → ℚ × ℚ) :
    ∀ n i s, (runPasses side jit i n s).player_fatigue = s.player_fatigue := by
  intro n
  induction n with
  | zero => intro i s; rfl
  | succ m ih => intro i s; simp [runPasses, ih]

theorem runPasses_yellow (side : String) (jit : Nat → ℚ × ℚ) :
    ∀ n i s, (runPasses side jit i n s).player_yellow_cards = s.player_yellow_cards := by
  intro n
  induction n with
  | zero => intro i s; rfl
  | succ m ih => intro i s; simp [runPasses, ih]

theorem runPasses_sent (side : String) (jit : Nat → ℚ × ℚ) :
    ∀ n i s, (runPasses side jit i n s).player_sent_off = s.player_sent_off := by
  intro n
  induction n with
  | zero => intro i s; rfl
  | succ m ih => intro i s; simp [runPasses, ih]

theorem runPasses_home_starters (side : String) (jit : Nat → ℚ × ℚ) :
    ∀ n i s, (runPasses side jit i n s).home_starters = s.home_starters := by
  intro n
  induction n with
  | zero => intro i s; rfl
  | succ m ih => intro i s; simp [runPasses, ih]

theorem runPasses_away_starters (side : String) (jit : Nat → ℚ × ℚ) :
    ∀ n i s, (runPasses side jit i n s).away_starters = s.away_starters := by
  intro n
  induction n with
  | zero => intro i s; rfl
  | succ m ih => intro i s; simp [runPasses, ih]

@[simp] theorem fatigueStep_score (e : SimulationEngine) (s : EngineState) (p : Player) :
    (e.fatigueStep s p).score = s.score := rfl

@[simp] theorem fatigueStep_stats (e : SimulationEngine) (s : EngineState) (p : Player) :
    (e.fatigueStep s p).stats = s.stats := rfl

@[simp] theorem fatigueStep_ball (e : SimulationEngine) (s : EngineState) (p : Player) :
    (e.fatigueStep s p).ball = s.ball := rfl

@[simp] theorem fatigueStep_possession (e : SimulationEngine) (s : EngineState) (p : Player) :
    (e.fatigueStep s p).possession = s.possession := rfl

@[simp] theorem fatigueStep_yellow (e : SimulationEngine) (s : EngineState) (p : Player) :
    (e.fatigueStep s p).player_yellow_cards = s.player_yellow_cards := rfl

@[simp] theorem fatigueStep_sent (e : SimulationEngine) (s : EngineState) (p : Player) :
    (e.fatigueStep s p).player_sent_off = s.player_sent_off := rfl

@[simp] theorem fatigueStep_home_starters (e : SimulationEngine) (s : EngineState) (p : Player) :
    (e.fatigueStep s p).home_starters = s.home_starters := rfl

@[simp] theorem fatigueStep_away_starters (e : SimulationEngine) (s : EngineState) (p : Player) :
    (e.fatigueStep s p).away_starters = s.away_starters := rfl

theorem foldl_fatigueStep_score (e : SimulationEngine) :
    ∀ (l : List Player) (s : EngineState), (l.foldl e.fatigueStep s).score = s.score := by
  intro l
  induction l with
  | nil => intro s; rfl
  | cons hd tl ih => intro s; simp [List.foldl_cons, ih]

theorem foldl_fatigueStep_stats (e : SimulationEngine) :
    ∀ (l : List Player) (s : EngineState), (l.foldl e.fatigueStep s).stats = s.stats := by
  intro l
  induction l with
  | nil => intro s; rfl
  | cons hd tl ih => intro s; simp [List.foldl_cons, ih]

theorem foldl_fatigueStep_ball (e : SimulationEngine) :
    ∀ (l : List Player) (s : EngineState), (l.foldl e.fatigueStep s).ball = s.ball := by
  intro l
  induction l with
  | nil => intro s; rfl
  | cons hd tl ih => intro s; simp [List.foldl_cons, ih]

theorem foldl_fatigueStep_possession (e : SimulationEngine) :
    ∀ (l : List Player) (s : EngineState), (l.foldl e.fatigueStep s).possession = s.possession := by
  intro l
  induction l with
  | nil => intro s; rfl
  | cons hd tl ih => intro s; simp [List.foldl_cons, ih]

theorem foldl_fatigueStep_yellow (e : SimulationEngine) :
    ∀ (l : List Player) (s : EngineState),
      (l.foldl e.fatigueStep s).player_yellow_cards = s.player_yellow_cards := by
  intro l
  induction l with
  | nil => intro s; rfl
  | cons hd tl ih => intro s; simp [List.foldl_cons, ih]

theorem foldl_fatigueStep_sent (e : SimulationEngine) :
    ∀ (l : List Player) (s : EngineState),
      (l.foldl e.fatigueStep s).player_sent_off = s.player_sent_off := by
  intro l
  induction l with
  | nil => intro s; rfl
  | cons hd tl ih => intro s; simp [List.foldl_cons, ih]

theorem updateFatigue_score (e : SimulationEngine) (s : EngineState) :
    (e.updateFatigue s).score = s.score := foldl_fatigueStep_score e _ s

theorem updateFatigue_stats (e : SimulationEngine) (s : EngineState) :
    (e.updateFatigue s).stats = s.stats := foldl_fatigueStep_stats e _ s

theorem updateFatigue_ball (e : SimulationEngine) (s : EngineState) :
    (e.updateFatigue s).ball = s.ball := foldl_fatigueStep_ball e _ s

theorem updateFatigue_possession (e : SimulationEngine) (s : EngineState) :
    (e.updateFatigue s).possession = s.possession := foldl_fatigueStep_possession e _ s

theorem updateFatigue_yellow (e : SimulationEngine) (s : EngineState) :
    (e.updateFatigue s).player_yellow_cards = s.player_yellow_cards :=
  foldl_fatigueStep_yellow e _ s

theorem updateFatigue_sent (e : SimulationEngine) (s : EngineState) :
    (e.updateFatigue s).player_sent_off = s.player_sent_off := foldl_fatigueStep_sent e _ s

theorem foldl_fatigueStep_home_starters (e : SimulationEngine) :
    ∀ (l : List Player) (s : EngineState),
      (l.foldl e.fatigueStep s).home_starters = s.home_starters := by
  intro l
  induction l with
  | nil => intro s; rfl
  | cons hd tl ih => intro s; simp [List.foldl_cons, ih]

theorem foldl_fatigueStep_away_starters (e : SimulationEngine) :
    ∀ (l : List Player) (s : EngineState),
      (l.foldl e.fatigueStep s).away_starters = s.away_starters := by
  intro l
  induction l with
  | nil => intro s; rfl
  | cons hd tl ih => intro s; simp [List.foldl_cons, ih]

theorem updateFatigue_home_starters (e : SimulationEngine) (s : EngineState) :
    (e.updateFatigue s).home_starters = s.home_starters :=
  foldl_fatigueStep_home_starters e _ s

theorem updateFatigue_away_starters (e : SimulationEngine) (s : EngineState) :
    (e.updateFatigue s).away_starters = s.away_starters :=
  foldl_fatigueStep_away_starters e _ s

/-! ## `resolve_shot` characterization -/

theorem goalCount_eq_zero {team : String} {evts : List SimulationEvent}
    (h : ∀ ev ∈ evts, ev.event_type ≠ "goal") : goalCount team evts = 0 := by
  unfold goalCount
  have : evts.filter (fun ev => ev.event_type == "goal" && ev.team == team) = [] := by
    apply List.filter_eq_nil.mpr
    intro ev hev
    simp [h ev hev]
  rw [this]
  rfl

theorem resolveShotCore_fatigue (e : SimulationEngine) (s : EngineState) (side : String)
    (r : ShotRand) (shooter gk : Player) :
    (e.resolveShotCore s side r shooter gk).1.player_fatigue = s.player_fatigue := by
  simp only [SimulationEngine.resolveShotCore]
  split_ifs <;> simp

theorem resolveShotCore_yellow (e : SimulationEngine) (s : EngineState) (side : String)
    (r : ShotRand) (shooter gk : Player) :
    (e.resolveShotCore s side r shooter gk).1.player_yellow_cards = s.player_yellow_cards := by
  simp only [SimulationEngine.resolveShotCore]
  split_ifs <;> simp

theorem resolveShotCore_sent (e : SimulationEngine) (s : EngineState) (side : String)
    (r : ShotRand) (shooter gk : Player) :
    (e.resolveShotCore s side r shooter gk).1.player_sent_off = s.player_sent_off := by
  simp only [SimulationEngine.resolveShotCore]
  split_ifs <;> simp

theorem resolveShotCore_home_starters (e : SimulationEngine) (s : EngineState) (side : String)
    (r : ShotRand) (shooter gk : Player) :
    (e.resolveShotCore s side r shooter gk).1.home_starters = s.home_starters := by
  simp only [SimulationEngine.resolveShotCore]
  split_ifs <;> simp

theorem resolveShotCore_away_starters (e : SimulationEngine) (s : EngineState) (side : String)
    (r : ShotRand) (shooter gk : Player) :
    (e.resolveShotCore s side r shooter gk).1.away_starters = s.away_starters := by
  simp only [SimulationEngine.resolveShotCore]
  split_ifs <;> simp

theorem resolveShotCore_ball (e : SimulationEngine) (s : EngineState) (side : String)
    (r : ShotRand) (shooter gk : Player) :
    (e.resolveShotCore s side r shooter gk).1.ball = s.ball ∨
      (e.resolveShotCore s side r shooter gk).1.ball = { x := 50, y := 34 } := by
  simp only [SimulationEngine.resolveShotCore]
  split_ifs <;> simp

theorem resolveShotCore_types (e : SimulationEngine) (s : EngineState) (side : String)
    (r : ShotRand) (shooter gk : Player) :
    ∀ ev ∈ (e.resolveShotCore s side r shooter gk).2,
      ev.event_type ∈ ["shot_blocked", "corner", "shot_off_target", "goal", "save"] := by
  simp only [SimulationEngine.resolveShotCore]
  split_ifs <;> intro ev hev <;> simp at hev <;>
    first
    | (rcases hev with h1 | h1 <;> simp [h1])
    | simp [hev]

theorem resolveShotCore_actor (e : SimulationEngine) (s : EngineState) (side : String)
    (r : ShotRand) (shooter gk : Player) :
    ∀ ev ∈ (e.resolveShotCore s side r shooter gk).2,
      ev.event_type ∈ actorEventTypes → ev.primary_player = some (fullName shooter) := by
  simp only [SimulationEngine.resolveShotCore]
  split_ifs <;> intro ev hev hty <;> simp at hev <;>
    first
    | (rcases hev with h1 | h1 <;> subst h1 <;> simp_all [actorEventTypes])
    | (subst hev <;> simp_all [actorEventTypes])

theorem resolveShotCore_score (e : SimulationEngine) (s : EngineState) (side : String)
    (r : ShotRand) (shooter gk : Player) (hside : side = "home" ∨ side = "away") :
    (e.resolveShotCore s side r shooter gk).1.score.home
        = s.score.home + goalCount "home" (e.resolveShotCore s side r shooter gk).2 ∧
      (e.resolveShotCore s side r shooter gk).1.score.away
        = s.score.away + goalCount "away" (e.resolveShotCore s side r shooter gk).2 := by
  rcases hside with hs | hs <;> subst hs <;>
    simp only [SimulationEngine.resolveShotCore] <;>
    split_ifs <;> simp_all [goalCount, List.filter]

theorem resolveShotCore_possession (e : SimulationEngine) (s : EngineState) (side : String)
    (r : ShotRand) (shooter gk : Player) :
    (e.resolveShotCore s side r shooter gk).1.possession = s.possession ∨
      (e.resolveShotCore s side r shooter gk).1.possession = opponent side := by
  simp only [SimulationEngine.resolveShotCore]
  split_ifs <;> simp

theorem resolveShotCore_goal_effects (e : SimulationEngine) (s : EngineState) (side : String)
    (r : ShotRand) (shooter gk : Player) :
    ((∃ ev ∈ (e.resolveShotCore s side r shooter gk).2, ev.event_type = "goal") →
      (e.resolveShotCore s side r shooter gk).1.score.ofSide side = s.score.ofSide side + 1 ∧
      (e.resolveShotCore s side r shooter gk).1.score.ofSide (opponent side)
        = s.score.ofSide (opponent side) ∧
      (e.resolveShotCore s side r shooter gk).1.ball = { x := 50, y := 34 } ∧
      (e.resolveShotCore s side r shooter gk).1.possession = opponent side) ∧
    ((∀ ev ∈ (e.resolveShotCore s side r shooter gk).2, ev.event_type ≠ "goal") →
      (e.resolveShotCore s side r shooter gk).1.score = s.score) := by
  by_cases hs : side = "home" <;>
    simp only [SimulationEngine.resolveShotCore] <;>
    split_ifs <;>
    simp_all [Score.ofSide, opponent]

/-! ## `simulate_foul` characterization -/

theorem simulateFoulCore_score (e : SimulationEngine) (s : EngineState) (side : String)
    (r : FoulRand) (fouler fouled : Player) :
    (e.simulateFoulCore s side r fouler fouled).1.score = s.score := by
  simp only [SimulationEngine.simulateFoulCore]
  split_ifs <;> simp

theorem simulateFoulCore_fatigue (e : SimulationEngine) (s : EngineState) (side : String)
    (r : FoulRand) (fouler fouled : Player) :
    (e.simulateFoulCore s side r fouler fouled).1.player_fatigue = s.player_fatigue := by
  simp only [SimulationEngine.simulateFoulCore]
  split_ifs <;> simp

theorem simulateFoulCore_ball (e : SimulationEngine) (s : EngineState) (side : String)
    (r : FoulRand) (fouler fouled : Player) :
    (e.simulateFoulCore s side r fouler fouled).1.ball = s.ball := by
  simp only [SimulationEngine.simulateFoulCore]
  split_ifs <;> simp

theorem simulateFoulCore_possession (e : SimulationEngine) (s : EngineState) (side : String)
    (r : FoulRand) (fouler fouled : Player) :
    (e.simulateFoulCore s side r fouler fouled).1.possession = s.possession := by
  simp only [SimulationEngine.simulateFoulCore]
  split_ifs <;> simp

theorem simulateFoulCore_home_starters (e : SimulationEngine) (s : EngineState) (side : String)
    (r : FoulRand) (fouler fouled : Player) :
    (e.simulateFoulCore s side r fouler fouled).1.home_starters = s.home_starters := by
  simp only [SimulationEngine.simulateFoulCore]
  split_ifs <;> simp

theorem simulateFoulCore_away_starters (e : SimulationEngine) (s : EngineState) (side : String)
    (r : FoulRand) (fouler fouled : Player) :
    (e.simulateFoulCore s side r fouler fouled).1.away_starters = s.away_starters := by
  simp only [SimulationEngine.simulateFoulCore]
  split_ifs <;> simp

theorem simulateFoulCore_types (e : SimulationEngine) (s : EngineState) (side : String)
    (r : FoulRand) (fouler fouled : Player) :
    ∀ ev ∈ (e.simulateFoulCore s side r fouler fouled).2,
      ev.event_type ∈ ["foul", "yellow_card", "second_yellow", "red_card"] := by
  simp only [SimulationEngine.simulateFoulCore]
  split_ifs <;> intro ev hev <;> simp at hev <;>
    first
    | (rcases hev with h1 | h1 | h1 <;> simp [h1])
    | (rcases hev with h1 | h1 <;> simp [h1])
    | simp [hev]

theorem simulateFoulCore_primary (e : SimulationEngine) (s : EngineState) (side : String)
    (r : FoulRand) (fouler fouled : Player) :
    ∀ ev ∈ (e.simulateFoulCore s side r fouler fouled).2,
      ev.primary_player = some (fullName fouler) := by
  simp only [SimulationEngine.simulateFoulCore]
  split_ifs <;> intro ev hev <;> simp at hev <;>
    first
    | (rcases hev with h1 | h1 | h1 <;> simp [h1])
    | (rcases hev with h1 | h1 <;> simp [h1])
    | simp [hev]

theorem simulateFoulCore_sent_mono (e : SimulationEngine) (s : EngineState) (side : String)
    (r : FoulRand) (fouler fouled : Player) (id : Int)
    (h : s.sentOff id = true) :
    (e.simulateFoulCore s side r fouler fouled).1.sentOff id = true := by
  unfold EngineState.sentOff at h ⊢
  simp only [SimulationEngine.simulateFoulCore]
  by_cases hid : id = fouler.id
  · subst hid
    split_ifs <;> simp [getEntry_setEntry_self, h]
  · split_ifs <;>
      simp [getEntry_setEntry_ne _ _ _ _ _ (fun hx => hid hx.symm), h]

theorem simulateFoulCore_sendoff (e : SimulationEngine) (s : EngineState) (side : String)
    (r : FoulRand) (fouler fouled : Player) :
    ∀ ev ∈ (e.simulateFoulCore s side r fouler fouled).2,
      (ev.event_type = "second_yellow" ∨ ev.event_type = "red_card") →
      (e.simulateFoulCore s side r fouler fouled).1.sentOff fouler.id = true := by
  unfold EngineState.sentOff
  simp only [SimulationEngine.simulateFoulCore]
  split_ifs <;> intro ev hev hty <;> simp at hev <;>
    first
    | (rcases hev with h1 | h1 | h1 <;> subst h1 <;> simp_all [getEntry_setEntry_self])
    | (rcases hev with h1 | h1 <;> subst h1 <;> simp_all [getEntry_setEntry_self])
    | (subst hev <;> simp_all [getEntry_setEntry_self])

/-! ## Tackle and offside branches -/

theorem tackleCore_fields (s : EngineState) (side : String) (tackler : Player) :
    (SimulationEngine.tackleCore s side tackler).1.score = s.score ∧
    (SimulationEngine.tackleCore s side tackler).1.ball = s.ball ∧
    (SimulationEngine.tackleCore s side tackler).1.player_fatigue = s.player_fatigue ∧
    (SimulationEngine.tackleCore s side tackler).1.player_yellow_cards = s.player_yellow_cards ∧
    (SimulationEngine.tackleCore s side tackler).1.player_sent_off = s.player_sent_off ∧
    (SimulationEngine.tackleCore s side tackler).1.home_starters = s.home_starters ∧
    (SimulationEngine.tackleCore s side tackler).1.away_starters = s.away_starters ∧
    (SimulationEngine.tackleCore s side tackler).1.possession = opponent side := by
  simp [SimulationEngine.tackleCore]

theorem tackleCore_events (s : EngineState) (side : String) (tackler : Player) :
    ∀ ev ∈ (SimulationEngine.tackleCore s side tackler).2,
      ev.event_type = "tackle" ∧ ev.primary_player = some (fullName tackler) := by
  simp [SimulationEngine.tackleCore]

theorem offsideCore_fields (s : EngineState) (side : String) :
    (SimulationEngine.offsideCore s side).1.score = s.score ∧
    (SimulationEngine.offsideCore s side).1.ball = s.ball ∧
    (SimulationEngine.offsideCore s side).1.player_fatigue = s.player_fatigue ∧
    (SimulationEngine.offsideCore s side).1.player_yellow_cards = s.player_yellow_cards ∧
    (SimulationEngine.offsideCore s side).1.player_sent_off = s.player_sent_off ∧
    (SimulationEngine.offsideCore s side).1.home_starters = s.home_starters ∧
    (SimulationEngine.offsideCore s side).1.away_starters = s.away_starters ∧
    (SimulationEngine.offsideCore s side).1.possession = opponent side := by
  simp [SimulationEngine.offsideCore]

theorem offsideCore_events (s : EngineState) (side : String) :
    ∀ ev ∈ (SimulationEngine.offsideCore s side).2,
      ev.event_type = "offside" ∧ ev.primary_player = none := by
  simp [SimulationEngine.offsideCore]

/-! ## Option-level eliminations -/

theorem resolveShot_elim {e : SimulationEngine} {s : EngineState} {side : String}
    {r : ShotRand} {res : EngineState × List SimulationEvent}
    (h : e.resolveShot s side r = some res) :
    ∃ shooter gk, e.pickWeightedPlayer s side "finishing" r.pickU = some shooter ∧
      e.pickGoalkeeper (opponent side) = some gk ∧
      res = e.resolveShotCore s side r shooter gk := by
  unfold SimulationEngine.resolveShot at h
  cases hp : e.pickWeightedPlayer s side "finishing" r.pickU with
  | none => rw [hp] at h; simp at h
  | some shooter =>
    rw [hp] at h
    cases hg : e.pickGoalkeeper (opponent side) with
    | none => rw [hg] at h; simp at h
    | some gk =>
      rw [hg] at h
      simp at h
      exact ⟨shooter, gk, rfl, rfl, h.symm⟩

theorem simulateFoul_elim {e : SimulationEngine} {s : EngineState} {side : String}
    {r : FoulRand} {res : EngineState × List SimulationEvent}
    (h : e.simulateFoul s side r = some res) :
    ∃ fouler fouled, e.pickWeightedPlayer s (opponent side) "aggression" r.foulerU = some fouler ∧
      e.pickPlayer s side r.fouledU = some fouled ∧
      res = e.simulateFoulCore s side r fouler fouled := by
  unfold SimulationEngine.simulateFoul at h
  cases hp : e.pickWeightedPlayer s (opponent side) "aggression" r.foulerU with
  | none => rw [hp] at h; simp at h
  | some fouler =>
    rw [hp] at h
    cases hg : e.pickPlayer s side r.fouledU with
    | none => rw [hg] at h; simp at h
    | some fouled =>
      rw [hg] at h
      simp at h
      exact ⟨fouler, fouled, rfl, rfl, h.symm⟩

theorem minuteEvents_elim {e : SimulationEngine} {s3 : EngineState} {side : String}
    {inA : Bool} {r : MinuteRand} {res : EngineState × List SimulationEvent}
    (h : e.minuteEvents s3 side inA r = some res) :
    (∃ shooter gk, e.pickWeightedPlayer s3 side "finishing" r.shot.pickU = some shooter ∧
      e.pickGoalkeeper (opponent side) = some gk ∧
      res = e.resolveShotCore s3 side r.shot shooter gk) ∨
    (∃ fouler fouled,
      e.pickWeightedPlayer s3 (opponent side) "aggression" r.foul.foulerU = some fouler ∧
      e.pickPlayer s3 side r.foul.fouledU = some fouled ∧
      res = e.simulateFoulCore s3 side r.foul fouler fouled) ∨
    (∃ tackler, e.pickWeightedPlayer s3 (opponent side) "tackling" r.tackleU = some tackler ∧
      res = SimulationEngine.tackleCore s3 side tackler) ∨
    res = SimulationEngine.offsideCore s3 side ∨
    res = (s3, []) := by
  unfold SimulationEngine.minuteEvents at h
  simp only [] at h
  split_ifs at h <;>
    first
    | exact Or.inl (resolveShot_elim h)
    | exact Or.inr (Or.inl (simulateFoul_elim h))
    | (refine Or.inr (Or.inr (Or.inl ?_))
       cases hp : e.pickWeightedPlayer s3 (opponent side) "tackling" r.tackleU with
       | none => rw [hp] at h; simp at h
       | some tackler =>
         rw [hp] at h
         simp at h
         exact ⟨tackler, rfl, h.symm⟩)
    | (exact Or.inr (Or.inr (Or.inr (Or.inl (by simp at h; exact h.symm)))))
    | (exact Or.inr (Or.inr (Or.inr (Or.inr (by simp at h; exact h.symm)))))

theorem midState_facts (e : SimulationEngine) (s0 : EngineState) (minute : Int)
    (r : MinuteRand) :
    (e.midState s0 minute r).score = s0.score ∧
    (e.midState s0 minute r).possession = s0.possession ∧
    (e.midState s0 minute r).player_yellow_cards = s0.player_yellow_cards ∧
    (e.midState s0 minute r).player_sent_off = s0.player_sent_off ∧
    (e.midState s0 minute r).home_starters = s0.home_starters ∧
    (e.midState s0 minute r).away_starters = s0.away_starters ∧
    (e.midState s0 minute r).player_fatigue
      = (if minute > 60 then e.updateFatigue s0 else s0).player_fatigue := by
  unfold SimulationEngine.midState
  split_ifs <;>
    simp [runPasses_score, runPasses_possession, runPasses_yellow, runPasses_sent,
      runPasses_home_starters, runPasses_away_starters, runPasses_fatigue,
      updateFatigue_score, updateFatigue_possession, updateFatigue_yellow,
      updateFatigue_sent, updateFatigue_home_starters, updateFatigue_away_starters]

theorem simulateMinute_elim {e : SimulationEngine} {s0 : EngineState} {minute : Int}
    {r : MinuteRand} {s2 : EngineState} {t : SimulationTick}
    (h : e.simulateMinute s0 minute r = some (s2, t)) :
    ∃ p4 : EngineState × List SimulationEvent,
      e.minuteEvents (e.midState s0 minute r) s0.possession
        ((e.midState s0 minute r).isAttackingThird s0.possession) r = some p4 ∧
      s2 = (e.finishMinute minute s0.possession r p4).1 ∧
      t = (e.finishMinute minute s0.possession r p4).2 := by
  unfold SimulationEngine.simulateMinute at h
  simp only [] at h
  simp only [Option.bind_eq_bind] at h
  rw [Option.bind_eq_some] at h
  obtain ⟨p4, hm, hf⟩ := h
  simp only [Option.some.injEq] at hf
  refine ⟨p4, ?_, congrArg Prod.fst hf.symm, congrArg Prod.snd hf.symm⟩
  exact hm

/-! ## `finishMinute` facts -/

theorem finishMinute_fields (e : SimulationEngine) (m : Int) (side : String)
    (r : MinuteRand) (p : EngineState × List SimulationEvent) :
    (e.finishMinute m side r p).2.events = p.2 ∧
    (e.finishMinute m side r p).2.minute = m ∧
    (e.finishMinute m side r p).1.score = p.1.score ∧
    (e.finishMinute m side r p).2.score = p.1.score ∧
    (e.finishMinute m side r p).1.stats = p.1.stats ∧
    (e.finishMinute m side r p).2.stats = p.1.stats ∧
    (e.finishMinute m side r p).1.ball = p.1.ball ∧
    (e.finishMinute m side r p).2.ball = p.1.ball ∧
    (e.finishMinute m side r p).1.player_fatigue = p.1.player_fatigue ∧
    (e.finishMinute m side r p).1.player_yellow_cards = p.1.player_yellow_cards ∧
    (e.finishMinute m side r p).1.player_sent_off = p.1.player_sent_off ∧
    (e.finishMinute m side r p).1.home_starters = p.1.home_starters ∧
    (e.finishMinute m side r p).1.away_starters = p.1.away_starters ∧
    (e.finishMinute m side r p).2.possession = (e.finishMinute m side r p).1.possession := by
  simp only [SimulationEngine.finishMinute]
  split_ifs <;> simp

theorem finishMinute_phase (e : SimulationEngine) (m : Int) (side : String)
    (r : MinuteRand) (p : EngineState × List SimulationEvent) :
    (e.finishMinute m side r p).2.phase = "open_play" ∨
      (e.finishMinute m side r p).2.phase = "attack_" ++ side := by
  simp only [SimulationEngine.finishMinute]
  split_ifs <;> simp

theorem finishMinute_possession (e : SimulationEngine) (m : Int) (side : String)
    (r : MinuteRand) (p : EngineState × List SimulationEvent) :
    (e.finishMinute m side r p).1.possession = p.1.possession ∨
      (e.finishMinute m side r p).1.possession = opponent p.1.possession := by
  simp only [SimulationEngine.finishMinute]
  split_ifs <;> simp

theorem opponent_ok (x : String) : opponent x = "home" ∨ opponent x = "away" := by
  unfold opponent
  split_ifs <;> simp

/-! ## Combined per-minute facts -/

theorem simulateMinute_score {e : SimulationEngine} {s0 : EngineState} {minute : Int}
    {r : MinuteRand} {s2 : EngineState} {t : SimulationTick}
    (hposs : s0.possession = "home" ∨ s0.possession = "away")
    (h : e.simulateMinute s0 minute r = some (s2, t)) :
    t.score = s2.score ∧
    s2.score.home = s0.score.home + goalCount "home" t.events ∧
    s2.score.away = s0.score.away + goalCount "away" t.events ∧
    (s2.possession = "home" ∨ s2.possession = "away") := by
  obtain ⟨p4, hm, hs2, ht⟩ := simulateMinute_elim h
  have hmid := midState_facts e s0 minute r
  set s3 := e.midState s0 minute r with hs3
  have hs3_score : s3.score = s0.score := hmid.1
  have hs3_poss : s3.possession = s0.possession := hmid.2.1
  have hfin := finishMinute_fields e minute s0.possession r p4
  have hevents : t.events = p4.2 := by rw [ht]; exact hfin.1
  have htscore : t.score = p4.1.score := by rw [ht]; exact hfin.2.2.2.1
  have hsscore : s2.score = p4.1.score := by rw [hs2]; exact hfin.2.2.1
  have hp4score : p4.1.score.home = s0.score.home + goalCount "home" p4.2 ∧
      p4.1.score.away = s0.score.away + goalCount "away" p4.2 := by
    rcases minuteEvents_elim hm with ⟨sh, gkp, _, _, hres⟩ | ⟨f1, f2, _, _, hres⟩ |
        ⟨tk, _, hres⟩ | hres | hres
    · have := resolveShotCore_score e s3 s0.possession r.shot sh gkp hposs
      rw [hres]
      rw [hs3_score] at this
      exact this
    · rw [hres]
      have hsc := simulateFoulCore_score e s3 s0.possession r.foul f1 f2
      have hng : ∀ ev ∈ (e.simulateFoulCore s3 s0.possession r.foul f1 f2).2,
          ev.event_type ≠ "goal" := by
        intro ev hev
        have := simulateFoulCore_types e s3 s0.possession r.foul f1 f2 ev hev
        simp at this
        rcases this with h1 | h1 | h1 | h1 <;> simp [h1]
      rw [hsc, hs3_score, goalCount_eq_zero hng, goalCount_eq_zero hng]
      simp
    · rw [hres]
      have hfld := tackleCore_fields s3 s0.possession tk
      have hng : ∀ ev ∈ (SimulationEngine.tackleCore s3 s0.possession tk).2,
          ev.event_type ≠ "goal" := by
        intro ev hev
        have := tackleCore_events s3 s0.possession tk ev hev
        simp [this.1]
      rw [hfld.1, hs3_score, goalCount_eq_zero hng, goalCount_eq_zero hng]
      simp
    · rw [hres]
      have hfld := offsideCore_fields s3 s0.possession
      have hng : ∀ ev ∈ (SimulationEngine.offsideCore s3 s0.possession).2,
          ev.event_type ≠ "goal" := by
        intro ev hev
        have := offsideCore_events s3 s0.possession ev hev
        simp [this.1]
      rw [hfld.1, hs3_score, goalCount_eq_zero hng, goalCount_eq_zero hng]
      simp
    · rw [hres]
      rw [hs3_score]
      simp [goalCount]
  have hp4poss : p4.1.possession = "home" ∨ p4.1.possession = "away" := by
    rcases minuteEvents_elim hm with ⟨sh, gkp, _, _, hres⟩ | ⟨f1, f2, _, _, hres⟩ |
        ⟨tk, _, hres⟩ | hres | hres
    · rcases resolveShotCore_possession e s3 s0.possession r.shot sh gkp with hq | hq
      · rw [hres, hq, hs3_poss]; exact hposs
      · rw [hres, hq]; exact opponent_ok _
    · rw [hres, simulateFoulCore_possession, hs3_poss]; exact hposs
    · rw [hres, (tackleCore_fields s3 s0.possession tk).2.2.2.2.2.2.2]
      exact opponent_ok _
    · rw [hres, (offsideCore_fields s3 s0.possession).2.2.2.2.2.2.2]
      exact opponent_ok _
    · rw [hres, hs3_poss]; exact hposs
  refine ⟨by rw [htscore, hsscore], ?_, ?_, ?_⟩
  · rw [hsscore, hevents]; exact hp4score.1
  · rw [hsscore, hevents]; exact hp4score.2
  · rcases finishMinute_possession e minute s0.possession r p4 with hq | hq
    · rw [hs2, hq]; exact hp4poss
    · rw [hs2, hq]; exact opponent_ok _

theorem simulateMinute_shape {e : SimulationEngine} {s0 : EngineState} {minute : Int}
    {r : MinuteRand} {s2 : EngineState} {t : SimulationTick}
    (h : e.simulateMinute s0 minute r = some (s2, t)) :
    t.minute = minute ∧
    (t.phase = "open_play" ∨ t.phase = "attack_" ++ s0.possession) ∧
    t.possession = s2.possession ∧
    t.score = s2.score ∧
    t.stats = s2.stats := by
  obtain ⟨p4, hm, hs2, ht⟩ := simulateMinute_elim h
  have hfin := finishMinute_fields e minute s0.possession r p4
  refine ⟨?_, ?_, ?_, ?_, ?_⟩
  · rw [ht]; exact hfin.2.1
  · rw [ht]; exact finishMinute_phase e minute s0.possession r p4
  · rw [ht, hs2]; exact hfin.2.2.2.2.2.2.2.2.2.2.2.2.2
  · rw [ht, hs2]; rw [hfin.2.2.2.1, hfin.2.2.1]
  · rw [ht, hs2]; rw [hfin.2.2.2.2.2.1, hfin.2.2.2.2.1]

theorem EligibleIn_congr {e : SimulationEngine} {s1 s2 : EngineState} {p : Player}
    (h : s1.player_sent_off = s2.player_sent_off) (he : EligibleIn e s1 p) :
    EligibleIn e s2 p := by
  unfold EligibleIn EngineState.sentOff at he ⊢
  rw [← h]
  exact he

theorem simulateMinute_sent_mono {e : SimulationEngine} {s0 : EngineState} {minute : Int}
    {r : MinuteRand} {s2 : EngineState} {t : SimulationTick}
    (h : e.simulateMinute s0 minute r = some (s2, t)) :
    ∀ id, s0.sentOff id = true → s2.sentOff id = true := by
  intro id hid
  obtain ⟨p4, hm, hs2, ht⟩ := simulateMinute_elim h
  have hmid := midState_facts e s0 minute r
  set s3 := e.midState s0 minute r with hs3
  have hs3_sent : s3.player_sent_off = s0.player_sent_off := hmid.2.2.2.1
  have hfin := finishMinute_fields e minute s0.possession r p4
  have hs2_sent : s2.player_sent_off = p4.1.player_sent_off := by
    rw [hs2]; exact hfin.2.2.2.2.2.2.2.2.2.2.1
  have hid3 : s3.sentOff id = true := by
    unfold EngineState.sentOff at hid ⊢
    rw [hs3_sent]
    exact hid
  have hp4 : p4.1.sentOff id = true := by
    rcases minuteEvents_elim hm with ⟨sh, gkp, _, _, hres⟩ | ⟨f1, f2, _, _, hres⟩ |
        ⟨tk, _, hres⟩ | hres | hres
    · unfold EngineState.sentOff at hid3 ⊢
      rw [hres, resolveShotCore_sent]
      exact hid3
    · rw [hres]
      exact simulateFoulCore_sent_mono e s3 s0.possession r.foul f1 f2 id hid3
    · unfold EngineState.sentOff at hid3 ⊢
      rw [hres, (tackleCore_fields s3 s0.possession tk).2.2.2.2.1]
      exact hid3
    · unfold EngineState.sentOff at hid3 ⊢
      rw [hres, (offsideCore_fields s3 s0.possession).2.2.2.2.1]
      exact hid3
    · rw [hres]; exact hid3
  unfold EngineState.sentOff at hp4 ⊢
  rw [hs2_sent]
  exact hp4

theorem simulateMinute_actor {e : SimulationEngine} {s0 : EngineState} {minute : Int}
    {r : MinuteRand} {s2 : EngineState} {t : SimulationTick}
    (h : e.simulateMinute s0 minute r = some (s2, t)) :
    (∀ ev ∈ t.events, ev.event_type ∈ actorEventTypes →
      ∃ p, EligibleIn e s0 p ∧ ev.primary_player = some (fullName p)) ∧
    (∀ ev ∈ t.events, (ev.event_type = "second_yellow" ∨ ev.event_type = "red_card") →
      ∃ p, EligibleIn e s0 p ∧ ev.primary_player = some (fullName p) ∧
        s2.sentOff p.id = true) := by
  obtain ⟨p4, hm, hs2, ht⟩ := simulateMinute_elim h
  have hmid := midState_facts e s0 minute r
  set s3 := e.midState s0 minute r with hs3
  have hs3_sent : s3.player_sent_off = s0.player_sent_off := hmid.2.2.2.1
  have hfin := finishMinute_fields e minute s0.possession r p4
  have hevents : t.events = p4.2 := by rw [ht]; exact hfin.1
  have hs2_sent : s2.player_sent_off = p4.1.player_sent_off := by
    rw [hs2]; exact hfin.2.2.2.2.2.2.2.2.2.2.1
  rw [hevents]
  rcases minuteEvents_elim hm with ⟨sh, gkp, hpick, _, hres⟩ | ⟨f1, f2, hpick, _, hres⟩ |
      ⟨tk, hpick, hres⟩ | hres | hres
  · have hel : EligibleIn e s0 sh :=
      EligibleIn_congr hs3_sent (mem_availablePlayers_eligible (pickWeightedPlayer_mem hpick))
    constructor
    · intro ev hev hty
      rw [hres] at hev
      exact ⟨sh, hel, resolveShotCore_actor e s3 s0.possession r.shot sh gkp ev hev hty⟩
    · intro ev hev hty
      rw [hres] at hev
      have := resolveShotCore_types e s3 s0.possession r.shot sh gkp ev hev
      rcases hty with h1 | h1 <;> rw [h1] at this <;> simp at this
  · have hel : EligibleIn e s0 f1 :=
      EligibleIn_congr hs3_sent (mem_availablePlayers_eligible (pickWeightedPlayer_mem hpick))
    constructor
    · intro ev hev hty
      rw [hres] at hev
      exact ⟨f1, hel, simulateFoulCore_primary e s3 s0.possession r.foul f1 f2 ev hev⟩
    · intro ev hev hty
      rw [hres] at hev
      refine ⟨f1, hel, simulateFoulCore_primary e s3 s0.possession r.foul f1 f2 ev hev, ?_⟩
      have := simulateFoulCore_sendoff e s3 s0.possession r.foul f1 f2 ev hev hty
      unfold EngineState.sentOff at this ⊢
      rw [hs2_sent, hres]
      exact this
  · have hel : EligibleIn e s0 tk :=
      EligibleIn_congr hs3_sent (mem_availablePlayers_eligible (pickWeightedPlayer_mem hpick))
    constructor
    · intro ev hev hty
      rw [hres] at hev
      exact ⟨tk, hel, (tackleCore_events s3 s0.possession tk ev hev).2⟩
    · intro ev hev hty
      rw [hres] at hev
      have := (tackleCore_events s3 s0.possession tk ev hev).1
      rcases hty with h1 | h1 <;> rw [h1] at this <;> simp at this
  · constructor
    · intro ev hev hty
      rw [hres] at hev
      have := (offsideCore_events s3 s0.possession ev hev).1
      rw [this] at hty
      simp [actorEventTypes] at hty
    · intro ev hev hty
      rw [hres] at hev
      have := (offsideCore_events s3 s0.possession ev hev).1
      rcases hty with h1 | h1 <;> rw [h1] at this <;> simp at this
  · constructor
    · intro ev hev hty
      rw [hres] at hev
      simp at hev
    · intro ev hev hty
      rw [hres] at hev
      simp at hev

/-! ## Run-level invariants -/

@[simp] theorem lastScoreD_nil (b : Score) : lastScoreD [] b = b := rfl

theorem lastScoreD_cons (t : SimulationTick) (ts : List SimulationTick) (b : Score) :
    lastScoreD (t :: ts) b = lastScoreD ts t.score := by
  cases ts <;> simp [lastScoreD, List.getLast?]

theorem lastScoreD_append (xs ys : List SimulationTick) (b : Score) :
    lastScoreD (xs ++ ys) b = lastScoreD ys (lastScoreD xs b) := by
  cases hys : ys with
  | nil => simp [lastScoreD]
  | cons y ys2 =>
    have hne : ys ≠ [] := by rw [hys]; simp
    rw [← hys]
    unfold lastScoreD
    rw [List.getLast?_append_of_ne_nil _ hne]
    rw [List.getLast?_eq_getLast ys hne]
    simp

theorem lastScoreD_concat (xs : List SimulationTick) (t : SimulationTick) (b : Score) :
    lastScoreD (xs ++ [t]) b = t.score := by
  unfold lastScoreD
  rw [List.getLast?_concat]
  rfl

@[simp] theorem goalsIn_nil (team : String) : goalsIn team [] = 0 := rfl

theorem goalsIn_cons (team : String) (t : SimulationTick) (ts : List SimulationTick) :
    goalsIn team (t :: ts) = goalCount team t.events + goalsIn team ts := by
  simp [goalsIn]

theorem goalsIn_append (team : String) (xs ys : List SimulationTick) :
    goalsIn team (xs ++ ys) = goalsIn team xs + goalsIn team ys := by
  simp [goalsIn]

theorem goalCount_nonneg (team : String) (evts : List SimulationEvent) :
    0 ≤ goalCount team evts := by
  unfold goalCount
  positivity

theorem goalsIn_nonneg (team : String) (ts : List SimulationTick) :
    0 ≤ goalsIn team ts := by
  induction ts with
  | nil => simp
  | cons t rest ih =>
    rw [goalsIn_cons]
    have := goalCount_nonneg team t.events
    omega

theorem ScoreLinked_append {b : Score} {xs ys : List SimulationTick}
    (hx : ScoreLinked b xs) (hy : ScoreLinked (lastScoreD xs b) ys) :
    ScoreLinked b (xs ++ ys) := by
  induction xs generalizing b with
  | nil => simpa using hy
  | cons x xs2 ih =>
    obtain ⟨h1, h2, h3⟩ := hx
    rw [lastScoreD_cons] at hy
    exact ⟨h1, h2, ih h3 hy⟩

theorem ScoreLinked_get {b : Score} {ts : List SimulationTick}
    (h : ScoreLinked b ts) :
    ∀ i ti, ts.get? i = some ti →
      ti.score.home = b.home + goalsIn "home" (ts.take (i + 1)) ∧
      ti.score.away = b.away + goalsIn "away" (ts.take (i + 1)) := by
  induction ts generalizing b with
  | nil => intro i ti hti; simp at hti
  | cons t rest ih =>
    intro i ti hti
    obtain ⟨h1, h2, h3⟩ := h
    cases i with
    | zero =>
      simp at hti
      subst hti
      simp [goalsIn_cons, h1, h2]
    | succ k =>
      have hti2 : rest.get? k = some ti := hti
      have := ih h3 k ti hti2
      rw [List.take_succ_cons, goalsIn_cons, goalsIn_cons]
      constructor
      · rw [this.1, h1]; ring
      · rw [this.2, h2]; ring

theorem runMinutes_shape {e : SimulationEngine} {s : EngineState}
    {L : List (Int × MinuteRand)} {s2 : EngineState} {ts : List SimulationTick}
    (h : e.runMinutes s L = some (s2, ts)) :
    ts.length = L.length ∧
    ts.map (fun t => t.minute) = L.map (fun q => q.1) ∧
    (∀ t ∈ ts, t.phase = "open_play" ∨ ∃ sd, t.phase = "attack_" ++ sd) := by
  induction L generalizing s ts with
  | nil =>
    unfold SimulationEngine.runMinutes at h
    simp at h
    simp [h.2]
  | cons hd tl ih =>
    obtain ⟨m, r⟩ := hd
    unfold SimulationEngine.runMinutes at h
    simp only [Option.bind_eq_bind] at h
    rw [Option.bind_eq_some] at h
    obtain ⟨⟨s1, t⟩, hmin, h⟩ := h
    rw [Option.bind_eq_some] at h
    obtain ⟨⟨s2b, ts2⟩, hrest, h⟩ := h
    simp only [Option.some.injEq, Prod.mk.injEq] at h
    obtain ⟨hs2, hts⟩ := h
    subst hs2
    subst hts
    have hshape := simulateMinute_shape hmin
    have ihr := ih hrest
    refine ⟨by simp [ihr.1], ?_, ?_⟩
    · simp [ihr.2.1, hshape.1]
    · intro tq htq
      rcases List.mem_cons.mp htq with h1 | h1
      · subst h1
        rcases hshape.2.1 with h2 | h2
        · exact Or.inl h2
        · exact Or.inr ⟨s.possession, h2⟩
      · exact ihr.2.2 tq h1

theorem runMinutes_score {e : SimulationEngine} {s : EngineState}
    {L : List (Int × MinuteRand)} {s2 : EngineState} {ts : List SimulationTick}
    (hposs : s.possession = "home" ∨ s.possession = "away")
    (h : e.runMinutes s L = some (s2, ts)) :
    ScoreLinked s.score ts ∧ s2.score = lastScoreD ts s.score ∧
      (s2.possession = "home" ∨ s2.possession = "away") := by
  induction L generalizing s ts with
  | nil =>
    unfold SimulationEngine.runMinutes at h
    simp at h
    obtain ⟨h1, h2⟩ := h
    subst h2
    rw [← h1]
    exact ⟨trivial, rfl, hposs⟩
  | cons hd tl ih =>
    obtain ⟨m, r⟩ := hd
    unfold SimulationEngine.runMinutes at h
    simp only [Option.bind_eq_bind] at h
    rw [Option.bind_eq_some] at h
    obtain ⟨⟨s1, t⟩, hmin, h⟩ := h
    rw [Option.bind_eq_some] at h
    obtain ⟨⟨s2b, ts2⟩, hrest, h⟩ := h
    simp only [Option.some.injEq, Prod.mk.injEq] at h
    obtain ⟨hs2, hts⟩ := h
    subst hs2
    subst hts
    have hsc := simulateMinute_score hposs hmin
    have ihr := ih hsc.2.2.2 hrest
    have htscore : t.score = s1.score := hsc.1
    refine ⟨⟨?_, ?_, ?_⟩, ?_, ihr.2.2⟩
    · rw [htscore, hsc.2.1]
    · rw [htscore, hsc.2.2.1]
    · rw [htscore]; exact ihr.1
    · rw [lastScoreD_cons, htscore]
      exact ihr.2.1

theorem runMinutes_sent_mono {e : SimulationEngine} {s : EngineState}
    {L : List (Int × MinuteRand)} {s2 : EngineState} {ts : List SimulationTick}
    (h : e.runMinutes s L = some (s2, ts)) :
    ∀ id, s.sentOff id = true → s2.sentOff id = true := by
  induction L generalizing s ts with
  | nil =>
    unfold SimulationEngine.runMinutes at h
    simp at h
    intro id hid
    rw [← h.1]
    exact hid
  | cons hd tl ih =>
    obtain ⟨m, r⟩ := hd
    unfold SimulationEngine.runMinutes at h
    simp only [Option.bind_eq_bind] at h
    rw [Option.bind_eq_some] at h
    obtain ⟨⟨s1, t⟩, hmin, h⟩ := h
    rw [Option.bind_eq_some] at h
    obtain ⟨⟨s2b, ts2⟩, hrest, h⟩ := h
    simp only [Option.some.injEq, Prod.mk.injEq] at h
    obtain ⟨hs2, hts⟩ := h
    subst hs2
    intro id hid
    exact ih hrest id (simulateMinute_sent_mono hmin id hid)

/-- Full names identify players among the two first elevens. -/
theorem fullName_inj {e : SimulationEngine} (hnames : DistinctNames e)
    {p q : Player}
    (hp : p ∈ e.home_squad.take 11 ∨ p ∈ e.away_squad.take 11)
    (hq : q ∈ e.home_squad.take 11 ∨ q ∈ e.away_squad.take 11)
    (h : fullName p = fullName q) : p = q := by
  unfold DistinctNames at hnames
  have hp2 : p ∈ e.home_squad.take 11 ++ e.away_squad.take 11 := by
    rcases hp with h1 | h1 <;> simp [h1]
  have hq2 : q ∈ e.home_squad.take 11 ++ e.away_squad.take 11 := by
    rcases hq with h1 | h1 <;> simp [h1]
  exact List.inj_on_of_nodup_map hnames hp2 hq2 h

/-- Once a player is sent off before a run of minutes, no event of an
actor type in any of its ticks names that player as primary. -/
theorem runMinutes_noActor {e : SimulationEngine} {s : EngineState}
    {L : List (Int × MinuteRand)} {s2 : EngineState} {ts : List SimulationTick}
    (hnames : DistinctNames e)
    (h : e.runMinutes s L = some (s2, ts)) (p : Player)
    (hmem : p ∈ e.home_squad.take 11 ∨ p ∈ e.away_squad.take 11)
    (hsent : s.sentOff p.id = true) :
    ∀ t ∈ ts, ∀ ev ∈ t.events, ev.event_type ∈ actorEventTypes →
      ev.primary_player ≠ some (fullName p) := by
  induction L generalizing s ts with
  | nil =>
    unfold SimulationEngine.runMinutes at h
    simp at h
    rw [h.2]
    intro t ht
    simp at ht
  | cons hd tl ih =>
    obtain ⟨m, r⟩ := hd
    unfold SimulationEngine.runMinutes at h
    simp only [Option.bind_eq_bind] at h
    rw [Option.bind_eq_some] at h
    obtain ⟨⟨s1, t⟩, hmin, h⟩ := h
    rw [Option.bind_eq_some] at h
    obtain ⟨⟨s2b, ts2⟩, hrest, h⟩ := h
    simp only [Option.some.injEq, Prod.mk.injEq] at h
    obtain ⟨hs2, hts⟩ := h
    subst hs2
    subst hts
    intro tq htq ev hev hty hprim
    rcases List.mem_cons.mp htq with h1 | h1
    · subst h1
      obtain ⟨q, hq, hqprim⟩ := (simulateMinute_actor hmin).1 ev hev hty
      rw [hqprim] at hprim
      have hqeq : q = p := fullName_inj hnames hq.1 hmem (Option.some.inj hprim)
      rw [hqeq] at hq
      rw [hq.2] at hsent
      exact Bool.false_ne_true hsent
    · exact ih hrest (simulateMinute_sent_mono hmin p.id hsent) tq h1 ev hev hty hprim

/-- Within one run of minutes: a send-off event (second yellow or
straight red) identifies an eligible player who is marked sent off from
that minute on, and that player is never the primary of a later
actor-type event in the same run. -/
theorem runMinutes_sendoff {e : SimulationEngine} {s : EngineState}
    {L : List (Int × MinuteRand)} {s2 : EngineState} {ts : List SimulationTick}
    (hnames : DistinctNames e)
    (h : e.runMinutes s L = some (s2, ts)) :
    ∀ i ti, ts.get? i = some ti → ∀ ev ∈ ti.events,
      (ev.event_type = "second_yellow" ∨ ev.event_type = "red_card") →
      ∃ p, (p ∈ e.home_squad.take 11 ∨ p ∈ e.away_squad.take 11) ∧
        ev.primary_player = some (fullName p) ∧ s2.sentOff p.id = true ∧
        ∀ j tj, i < j → ts.get? j = some tj → ∀ ev2 ∈ tj.events,
          ev2.event_type ∈ actorEventTypes → ev2.primary_player ≠ some (fullName p) := by
  induction L generalizing s ts with
  | nil =>
    unfold SimulationEngine.runMinutes at h
    simp at h
    rw [h.2]
    intro i ti hti
    simp at hti
  | cons hd tl ih =>
    obtain ⟨m, r⟩ := hd
    unfold SimulationEngine.runMinutes at h
    simp only [Option.bind_eq_bind] at h
    rw [Option.bind_eq_some] at h
    obtain ⟨⟨s1, t⟩, hmin, h⟩ := h
    rw [Option.bind_eq_some] at h
    obtain ⟨⟨s2b, ts2⟩, hrest, h⟩ := h
    simp only [Option.some.injEq, Prod.mk.injEq] at h
    obtain ⟨hs2, hts⟩ := h
    subst hs2
    subst hts
    intro i ti hti ev hev hty
    cases i with
    | zero =>
      have hti2 : ti = t := by
        have : (t :: ts2).get? 0 = some t := rfl
        rw [this] at hti
        injection hti with h2
        exact h2.symm
      subst hti2
      obtain ⟨q, hq, hqprim, hqsent⟩ := (simulateMinute_actor hmin).2 ev hev hty
      refine ⟨q, hq.1, hqprim, runMinutes_sent_mono hrest q.id hqsent, ?_⟩
      intro j tj hij htj ev2 hev2 hty2
      cases j with
      | zero => exact absurd hij (by omega)
      | succ k =>
        have htj2 : ts2.get? k = some tj := htj
        exact runMinutes_noActor hnames hrest q hq.1 hqsent tj
          (List.get?_mem htj2) ev2 hev2 hty2
    | succ k =>
      have hti2 : ts2.get? k = some ti := hti
      obtain ⟨q, hqmem, hqprim, hqsent, hqlater⟩ := ih hrest k ti hti2 ev hev hty
      refine ⟨q, hqmem, hqprim, hqsent, ?_⟩
      intro j tj hij htj ev2 hev2 hty2
      cases j with
      | zero => exact absurd hij (by omega)
      | succ k2 =>
        have htj2 : ts2.get? k2 = some tj := htj
        exact hqlater k2 tj (by omega) htj2 ev2 hev2 hty2

/-! ## Post-processing lemmas -/

theorem setLastStats_length (ts : List SimulationTick) (st : MatchStats) :
    (setLastStats ts st).length = ts.length := by
  induction ts with
  | nil => rfl
  | cons t rest ih =>
    cases rest with
    | nil => rfl
    | cons t2 rest2 => simp [setLastStats] at ih ⊢; exact ih

theorem setLastStats_map {α : Type} (f : SimulationTick → α)
    (hf : ∀ t st, f { t with stats := st } = f t) (ts : List SimulationTick)
    (st : MatchStats) : (setLastStats ts st).map f = ts.map f := by
  induction ts with
  | nil => rfl
  | cons t rest ih =>
    cases rest with
    | nil => simp [setLastStats, hf]
    | cons t2 rest2 => simp [setLastStats] at ih ⊢; exact ih

theorem setLastStats_scoreLinked {b : Score} {ts : List SimulationTick}
    {st : MatchStats} (h : ScoreLinked b ts) : ScoreLinked b (setLastStats ts st) := by
  induction ts generalizing b with
  | nil => exact h
  | cons t rest ih =>
    cases rest with
    | nil =>
      obtain ⟨h1, h2, _⟩ := h
      exact ⟨h1, h2, trivial⟩
    | cons t2 rest2 =>
      obtain ⟨h1, h2, h3⟩ := h
      exact ⟨h1, h2, ih h3⟩

theorem setLastStats_getLast {ts : List SimulationTick} (st : MatchStats)
    (hne : ts ≠ []) :
    ∃ tl, ts.getLast? = some tl ∧
      (setLastStats ts st).getLast? = some { tl with stats := st } := by
  induction ts with
  | nil => exact absurd rfl hne
  | cons t rest ih =>
    cases rest with
    | nil => exact ⟨t, rfl, rfl⟩
    | cons t2 rest2 =>
      obtain ⟨tl, h1, h2⟩ := ih (by simp)
      refine ⟨tl, ?_, ?_⟩
      · rw [List.getLast?_cons_cons]
        exact h1
      · show (t :: setLastStats (t2 :: rest2) st).getLast? = _
        have hne2 : setLastStats (t2 :: rest2) st ≠ [] := by
          intro hx
          have := setLastStats_length (t2 :: rest2) st
          rw [hx] at this
          simp at this
        cases hs : setLastStats (t2 :: rest2) st with
        | nil => exact absurd hs hne2
        | cons q qs =>
          rw [List.getLast?_cons_cons]
          rw [hs] at h2
          exact h2

theorem ScoreLinked_last {b : Score} {ts : List SimulationTick} (h : ScoreLinked b ts) :
    (lastScoreD ts b).home = b.home + goalsIn "home" ts ∧
    (lastScoreD ts b).away = b.away + goalsIn "away" ts := by
  induction ts generalizing b with
  | nil => simp
  | cons t rest ih =>
    obtain ⟨h1, h2, h3⟩ := h
    rw [lastScoreD_cons, goalsIn_cons, goalsIn_cons]
    have := ih h3
    constructor
    · rw [this.1, h1]; ring
    · rw [this.2, h2]; ring

theorem goalsIn_take_mono (team : String) (ts : List SimulationTick) {i j : ℕ}
    (hij : i ≤ j) : goalsIn team (ts.take i) ≤ goalsIn team (ts.take j) := by
  have hj : j = i + (j - i) := by omega
  rw [hj, List.take_add, goalsIn_append]
  have := goalsIn_nonneg team ((ts.drop i).take (j - i))
  omega

theorem simulate_elim {e : SimulationEngine} {ih1 ih2 : Nat} {o : Nat → MinuteRand}
    {ticks : List SimulationTick} (h : e.simulate ih1 ih2 o = some ticks) :
    ∃ s1 ts1 s2 ts2,
      e.runMinutes e.startState (firstHalfSchedule ih1 o) = some (s1, ts1) ∧
      e.runMinutes (secondHalfState s1) (secondHalfSchedule ih1 ih2 o) = some (s2, ts2) ∧
      ticks = setLastStats (combinedTicks e s1 ts1 s2 ts2)
        (finalStatsOf e s2 (combinedTicks e s1 ts1 s2 ts2)) := by
  unfold SimulationEngine.simulate at h
  simp only [Option.bind_eq_bind] at h
  rw [Option.bind_eq_some] at h
  obtain ⟨⟨s1, ts1⟩, h1, h⟩ := h
  rw [Option.bind_eq_some] at h
  obtain ⟨⟨s2, ts2⟩, h2, h⟩ := h
  simp only [Option.some.injEq] at h
  exact ⟨s1, ts1, s2, ts2, h1, h2, h.symm⟩

theorem scoreLinked_combined {e : SimulationEngine} {ih1 ih2 : Nat} {o : Nat → MinuteRand}
    {s1 : EngineState} {ts1 : List SimulationTick} {s2 : EngineState}
    {ts2 : List SimulationTick}
    (h1 : e.runMinutes e.startState (firstHalfSchedule ih1 o) = some (s1, ts1))
    (h2 : e.runMinutes (secondHalfState s1) (secondHalfSchedule ih1 ih2 o)
      = some (s2, ts2)) :
    ScoreLinked e.startState.score (combinedTicks e s1 ts1 s2 ts2) ∧
      lastScoreD (combinedTicks e s1 ts1 s2 ts2) e.startState.score = s2.score := by
  have hposs1 : e.startState.possession = "home" ∨ e.startState.possession = "away" :=
    Or.inl rfl
  have hr1 := runMinutes_score hposs1 h1
  have hposs2 : (secondHalfState s1).possession = "home" ∨
      (secondHalfState s1).possession = "away" := Or.inr rfl
  have hr2 := runMinutes_score hposs2 h2
  have hs1b_score : (secondHalfState s1).score = s1.score := rfl
  rw [hs1b_score] at hr2
  have hsl2 : ScoreLinked s1.score ts2 := hr2.1
  have hhtscore : (e.halfTimeTick s1).score = s1.score := rfl
  have hftscore : (e.fullTimeTick s2).score = s2.score := rfl
  have hhtev : (e.halfTimeTick s1).events = ([] : List SimulationEvent) := rfl
  have hftev : (e.fullTimeTick s2).events = ([] : List SimulationEvent) := rfl
  have hsl1ht : ScoreLinked e.startState.score (ts1 ++ [e.halfTimeTick s1]) := by
    refine ScoreLinked_append hr1.1 ⟨?_, ?_, trivial⟩
    · rw [hhtscore, hr1.2.1, hhtev]
      simp [goalCount]
    · rw [hhtscore, hr1.2.1, hhtev]
      simp [goalCount]
  have hlast1 : lastScoreD (ts1 ++ [e.halfTimeTick s1]) e.startState.score = s1.score := by
    rw [lastScoreD_concat]
    exact hhtscore
  have hsl12 : ScoreLinked e.startState.score ((ts1 ++ [e.halfTimeTick s1]) ++ ts2) := by
    refine ScoreLinked_append hsl1ht ?_
    rw [hlast1]
    exact hsl2
  have hlast2 : lastScoreD ((ts1 ++ [e.halfTimeTick s1]) ++ ts2) e.startState.score
      = s2.score := by
    rw [lastScoreD_append, hlast1, hr2.2.1]
  constructor
  · show ScoreLinked e.startState.score (((ts1 ++ [e.halfTimeTick s1]) ++ ts2)
      ++ [e.fullTimeTick s2])
    refine ScoreLinked_append hsl12 ⟨?_, ?_, trivial⟩
    · rw [hftscore, hlast2, hftev]
      simp [goalCount]
    · rw [hftscore, hlast2, hftev]
      simp [goalCount]
  · show lastScoreD (((ts1 ++ [e.halfTimeTick s1]) ++ ts2) ++ [e.fullTimeTick s2]) _
      = s2.score
    rw [lastScoreD_concat]
    exact hftscore

/-- C2: in every completed run, each tick's score snapshot equals the
number of goal events for that side accumulated so far (so the final
score equals the total goal-event counts), and the score is
monotonically non-decreasing along the tick sequence. -/
theorem C2_score_equals_goal_events (e : SimulationEngine) (ih1 ih2 : Nat)
    (o : Nat → MinuteRand) (ticks : List SimulationTick)
    (hsim : e.simulate ih1 ih2 o = some ticks) :
    (∀ i ti, ticks.get? i = some ti →
      ti.score.home = goalsIn "home" (ticks.take (i + 1)) ∧
      ti.score.away = goalsIn "away" (ticks.take (i + 1))) ∧
    (∀ tl, ticks.getLast? = some tl →
      tl.score.home = goalsIn "home" ticks ∧ tl.score.away = goalsIn "away" ticks) ∧
    (∀ i j ti tj, i ≤ j → ticks.get? i = some ti → ticks.get? j = some tj →
      ti.score.home ≤ tj.score.home ∧ ti.score.away ≤ tj.score.away) := by
  obtain ⟨s1, ts1, s2, ts2, h1, h2, hticks⟩ := simulate_elim hsim
  obtain ⟨hslc, hlastc⟩ := scoreLinked_combined h1 h2
  have hsl : ScoreLinked e.startState.score ticks := by
    rw [hticks]
    exact setLastStats_scoreLinked hslc
  have hb0 : e.startState.score.home = 0 ∧ e.startState.score.away = 0 := ⟨rfl, rfl⟩
  have hper : ∀ i ti, ticks.get? i = some ti →
      ti.score.home = goalsIn "home" (ticks.take (i + 1)) ∧
      ti.score.away = goalsIn "away" (ticks.take (i + 1)) := by
    intro i ti hti
    have := ScoreLinked_get hsl i ti hti
    rw [hb0.1, hb0.2] at this
    simpa using this
  refine ⟨hper, ?_, ?_⟩
  · intro tl htl
    have := ScoreLinked_last hsl
    unfold lastScoreD at this
    rw [htl] at this
    rw [hb0.1, hb0.2] at this
    simpa using this
  · intro i j ti tj hij hti htj
    have hi := hper i ti hti
    have hj := hper j tj htj
    have hmh := goalsIn_take_mono "home" ticks (by omega : i + 1 ≤ j + 1)
    have hma := goalsIn_take_mono "away" ticks (by omega : i + 1 ≤ j + 1)
    constructor
    · rw [hi.1, hj.1]; exact hmh
    · rw [hi.2, hj.2]; exact hma

/-- C3: a goal produced by `resolve_shot` increments exactly the
scoring side's score by one, resets the ball to the centre spot and
flips possession to the conceding side; any other shot outcome leaves
the score unchanged. -/
theorem C3_goal_resets_ball_and_flips_possession (e : SimulationEngine)
    (s : EngineState) (side : String) (r : ShotRand) (s2 : EngineState)
    (evts : List SimulationEvent) (h : e.resolveShot s side r = some (s2, evts)) :
    ((∃ ev ∈ evts, ev.event_type = "goal") →
      s2.score.ofSide side = s.score.ofSide side + 1 ∧
      s2.score.ofSide (opponent side) = s.score.ofSide (opponent side) ∧
      s2.ball = { x := 50, y := 34 } ∧
      s2.possession = opponent side) ∧
    ((∀ ev ∈ evts, ev.event_type ≠ "goal") → s2.score = s.score) := by
  obtain ⟨sh, gk, _, _, hres⟩ := resolveShot_elim h
  have hs2 : s2 = (e.resolveShotCore s side r sh gk).1 := congrArg Prod.fst hres
  have hev : evts = (e.resolveShotCore s side r sh gk).2 := congrArg Prod.snd hres
  rw [hs2, hev]
  exact resolveShotCore_goal_effects e s side r sh gk

/-- C6: when the card roll succeeds in `simulate_foul` (and the
independent straight-red roll does not), a fouler holding a prior
yellow receives exactly one `second_yellow` event (and no
`yellow_card`), is marked sent off, and the fouling side's yellow and
red counters both increment by one; a fouler with no prior yellow
receives a `yellow_card` event, only the yellow counter increments, and
the player is not sent off by it. -/
theorem C6_second_yellow_card_logic (e : SimulationEngine) (s : EngineState)
    (side : String) (r : FoulRand) (s2 : EngineState) (evts : List SimulationEvent)
    (fouler : Player)
    (hfouler : e.pickWeightedPlayer s (opponent side) "aggression" r.foulerU = some fouler)
    (h : e.simulateFoul s side r = some (s2, evts))
    (hcard : r.cardRoll < 0.13 + (e.getAttr s fouler.id "aggression" - 10) / 20 * 0.07)
    (hnored : ¬ r.redRoll < 0.005) :
    (1 ≤ getEntry s.player_yellow_cards fouler.id 0 →
      (evts.filter (fun ev => ev.event_type == "second_yellow")).length = 1 ∧
      (evts.filter (fun ev => ev.event_type == "yellow_card")).length = 0 ∧
      s2.sentOff fouler.id = true ∧
      (s2.stats.ofSide (opponent side)).yellow_cards
        = (s.stats.ofSide (opponent side)).yellow_cards + 1 ∧
      (s2.stats.ofSide (opponent side)).red_cards
        = (s.stats.ofSide (opponent side)).red_cards + 1) ∧
    (¬ 1 ≤ getEntry s.player_yellow_cards fouler.id 0 →
      (evts.filter (fun ev => ev.event_type == "yellow_card")).length = 1 ∧
      (evts.filter (fun ev => ev.event_type == "second_yellow")).length = 0 ∧
      s2.sentOff fouler.id = s.sentOff fouler.id ∧
      (s2.stats.ofSide (opponent side)).yellow_cards
        = (s.stats.ofSide (opponent side)).yellow_cards + 1 ∧
      (s2.stats.ofSide (opponent side)).red_cards
        = (s.stats.ofSide (opponent side)).red_cards) := by
  obtain ⟨f1, f2, hp1, hp2, hres⟩ := simulateFoul_elim h
  have hf1 : f1 = fouler := by
    rw [hfouler] at hp1
    exact (Option.some.inj hp1).symm
  subst hf1
  have hs2 : s2 = (e.simulateFoulCore s side r f1 f2).1 := congrArg Prod.fst hres
  have hev : evts = (e.simulateFoulCore s side r f1 f2).2 := congrArg Prod.snd hres
  have hattr : e.getAttr (s.incStat (opponent side) "fouls" 1) f1.id "aggression"
      = e.getAttr s f1.id "aggression" :=
    getAttr_congr e f1.id "aggression" (incStat_fatigue s (opponent side) "fouls" 1)
  rw [hs2, hev]
  unfold EngineState.sentOff
  simp only [SimulationEngine.simulateFoulCore, hattr, hnored, if_neg, if_pos hcard,
    ite_false, incStat_yellow]
  constructor
  · intro hprev
    rw [if_pos hprev]
    by_cases hside : side = "home" <;>
      simp [hside, EngineState.incStat, TeamStats.inc, MatchStats.ofSide, opponent,
        getEntry_setEntry_self]
  · intro hprev
    rw [if_neg hprev]
    by_cases hside : side = "home" <;>
      simp [hside, EngineState.incStat, TeamStats.inc, MatchStats.ofSide, opponent,
        getEntry_setEntry_self]

/-! ## Selector totality (C8) -/

theorem listSum_le {ws : List ℚ} (h : ∀ w ∈ ws, (1:ℚ) ≤ w) :
    (ws.length : ℚ) ≤ ws.sum := by
  induction ws with
  | nil => simp
  | cons w ws2 ih =>
    simp only [List.length_cons, List.sum_cons]
    have h1 : (1:ℚ) ≤ w := h w (by simp)
    have h2 : (ws2.length : ℚ) ≤ ws2.sum := ih (fun x hx => h x (by simp [hx]))
    push_cast
    linarith

theorem rouletteLoop_some : ∀ (avail : List Player) (ws : List ℚ) (r : ℚ),
    avail ≠ [] → ws.length = avail.length → r ≤ ws.sum →
    ∃ p, rouletteLoop avail ws r = some p := by
  intro avail
  induction avail with
  | nil => intro ws r hne; exact absurd rfl hne
  | cons a as ih =>
    intro ws r _ hlen hr
    cases ws with
    | nil => simp at hlen
    | cons w ws2 =>
      rw [List.sum_cons] at hr
      by_cases hw : r - w ≤ 0
      · exact ⟨a, by simp [rouletteLoop, hw]⟩
      · by_cases hasnil : as = []
        · subst hasnil
          have hws2nil : ws2 = [] := List.eq_nil_of_length_eq_zero (by simpa using hlen)
          subst hws2nil
          simp at hr
          exact absurd (by linarith : r - w ≤ 0) hw
        · obtain ⟨p, hp⟩ := ih ws2 (r - w) hasnil (by simpa using hlen) (by linarith)
          exact ⟨p, by simp [rouletteLoop, hw, hp]⟩

theorem rouletteLoop_hits : ∀ (avail : List Player) (ws : List ℚ) (i : ℕ)
    (hi : i < avail.length), ws.length = avail.length → (∀ w ∈ ws, (1:ℚ) ≤ w) →
    ∃ rr, 0 < rr ∧ rr < ws.sum ∧
      rouletteLoop avail ws rr = some (avail.get ⟨i, hi⟩) := by
  intro avail
  induction avail with
  | nil => intro ws i hi; simp at hi
  | cons a as ih =>
    intro ws i hi hlen hws
    cases ws with
    | nil => simp at hlen
    | cons w ws2 =>
      have hw1 : (1:ℚ) ≤ w := hws w (by simp)
      have hws2 : ∀ x ∈ ws2, (1:ℚ) ≤ x := fun x hx => hws x (by simp [hx])
      have hsum2 : (0:ℚ) ≤ ws2.sum :=
        List.sum_nonneg (fun x hx => le_trans (by norm_num) (hws2 x hx))
      cases i with
      | zero =>
        refine ⟨w / 2, by linarith, ?_, ?_⟩
        · simp only [List.sum_cons]
          nlinarith [hsum2, hw1]
        · show rouletteLoop (a :: as) (w :: ws2) (w / 2) = some ((a :: as).get ⟨0, hi⟩)
          simp only [rouletteLoop]
          rw [if_pos (by linarith : w / 2 - w ≤ 0)]
          rfl
      | succ k =>
        have hk : k < as.length := by simpa using hi
        obtain ⟨rr, hr0, hrs, hloop⟩ := ih ws2 k hk (by simpa using hlen) hws2
        refine ⟨w + rr, by linarith, ?_, ?_⟩
        · rw [List.sum_cons]; linarith
        · have hgt : ¬ (w + rr - w ≤ 0) := by
            intro hx
            have : rr ≤ 0 := by linarith
            linarith
          simp only [rouletteLoop, hgt, if_neg, ite_false]
          have : w + rr - w = rr := by ring
          rw [this, hloop]
          rfl

/-- C8: whenever at least one of the side's first 11 squad entries is
not sent off, both selectors succeed and return an eligible player; in
weighted selection every weight is the resolved attribute floored at 1,
the total weight is positive, and every eligible player is reachable by
some admissible draw (no starvation); an empty eligible pool makes both
selectors fail (the engine's precondition violation). -/
theorem C8_selection_total_and_fair (e : SimulationEngine) (s : EngineState)
    (side attr : String) (u : ℚ) (hu0 : 0 ≤ u) (hu1 : u < 1)
    (hne : e.availablePlayers s side ≠ []) :
    (∃ p, e.pickPlayer s side u = some p ∧ p ∈ e.availablePlayers s side ∧
      EligibleIn e s p) ∧
    (∃ q, e.pickWeightedPlayer s side attr u = some q ∧
      q ∈ e.availablePlayers s side ∧ EligibleIn e s q) ∧
    (∀ w ∈ (e.availablePlayers s side).map (fun p => max (e.getAttr s p.id attr) 1),
      (1:ℚ) ≤ w) ∧
    0 < ((e.availablePlayers s side).map (fun p => max (e.getAttr s p.id attr) 1)).sum ∧
    (∀ i (hi : i < (e.availablePlayers s side).length),
      ∃ rr, 0 ≤ rr ∧
        rr < ((e.availablePlayers s side).map (fun p => max (e.getAttr s p.id attr) 1)).sum ∧
        rouletteLoop (e.availablePlayers s side)
          ((e.availablePlayers s side).map (fun p => max (e.getAttr s p.id attr) 1)) rr
          = some ((e.availablePlayers s side).get ⟨i, hi⟩)) ∧
    (∀ s2 : EngineState, e.availablePlayers s2 side = [] →
      e.pickPlayer s2 side u = none ∧ e.pickWeightedPlayer s2 side attr u = none) := by
  set avail := e.availablePlayers s side with havail
  set ws := avail.map (fun p => max (e.getAttr s p.id attr) 1) with hws
  have hlen : ws.length = avail.length := by rw [hws]; simp
  have hwge : ∀ w ∈ ws, (1:ℚ) ≤ w := by
    intro w hw
    rw [hws] at hw
    obtain ⟨p, _, hp⟩ := List.mem_map.mp hw
    rw [← hp]
    exact le_max_right _ _
  have hlenpos : 0 < avail.length := List.length_pos.mpr hne
  have htot : (0:ℚ) < ws.sum := by
    have h1 : (ws.length : ℚ) ≤ ws.sum := listSum_le hwge
    have h2 : (0:ℚ) < (ws.length : ℚ) := by
      rw [hlen]
      exact_mod_cast hlenpos
    linarith
  refine ⟨?_, ?_, hwge, htot, ?_, ?_⟩
  · -- uniform pick succeeds
    have hidx : (⌊u * (avail.length : ℚ)⌋).toNat < avail.length := by
      have hlt : u * (avail.length : ℚ) < (avail.length : ℚ) := by
        have : (0:ℚ) < (avail.length : ℚ) := by exact_mod_cast hlenpos
        nlinarith
      have hfl : ⌊u * (avail.length : ℚ)⌋ < (avail.length : ℤ) := by
        rw [Int.floor_lt]
        exact_mod_cast hlt
      have hfl0 : 0 ≤ ⌊u * (avail.length : ℚ)⌋ :=
        Int.floor_nonneg.mpr (mul_nonneg hu0 (by positivity))
      omega
    refine ⟨avail.get ⟨(⌊u * (avail.length : ℚ)⌋).toNat, hidx⟩, ?_, ?_, ?_⟩
    · unfold SimulationEngine.pickPlayer
      rw [← havail]
      exact List.get?_eq_get hidx
    · exact List.get_mem _ _ _
    · exact mem_availablePlayers_eligible (List.get_mem _ _ _)
  · -- weighted pick succeeds
    have hle : u * ws.sum ≤ ws.sum := by nlinarith
    obtain ⟨q, hq⟩ := rouletteLoop_some avail ws (u * ws.sum) hne hlen hle
    refine ⟨q, ?_, rouletteLoop_mem hq, mem_availablePlayers_eligible (rouletteLoop_mem hq)⟩
    unfold SimulationEngine.pickWeightedPlayer
    simp only []
    rw [← havail, ← hws, hq]
  · -- no starvation
    intro i hi
    obtain ⟨rr, h0, hs2, hloop⟩ := rouletteLoop_hits avail ws i hi hlen hwge
    exact ⟨rr, le_of_lt h0, hs2, hloop⟩
  · -- empty pool: both selectors fail
    intro s2 hempty
    constructor
    · unfold SimulationEngine.pickPlayer
      rw [hempty]
      simp
    · unfold SimulationEngine.pickWeightedPlayer
      simp only []
      rw [hempty]
      simp [rouletteLoop]

/-! ## Ball bounds (C9) -/

theorem clamp_mem (v lo hi : ℚ) (h : lo ≤ hi) :
    lo ≤ min (max v lo) hi ∧ min (max v lo) hi ≤ hi :=
  ⟨le_min (le_max_right v lo) h, min_le_right _ _⟩

theorem jitterBall_inBounds (s : EngineState) (dx dy : ℚ) (hin : InBounds s.ball) :
    InBounds (s.jitterBall dx dy).ball := by
  unfold EngineState.jitterBall InBounds
  have hx := clamp_mem (s.ball.x + dx) 0 100 (by norm_num)
  have hy := clamp_mem (s.ball.y + dy) 0 68 (by norm_num)
  exact ⟨hx.1, hx.2, hy.1, hy.2⟩

theorem moveBallForward_inBounds (s : EngineState) (side : String) (delta dy : ℚ)
    (hd : 0 ≤ delta) (hin : InBounds s.ball) :
    InBounds (s.moveBallForward side delta dy).ball := by
  obtain ⟨hx0, hx1, hy0, hy1⟩ := hin
  unfold EngineState.moveBallForward InBounds
  have hy := clamp_mem (s.ball.y + dy) 0 68 (by norm_num)
  refine ⟨?_, ?_, hy.1, hy.2⟩
  · split_ifs
    · exact le_min (by linarith) (by norm_num)
    · exact le_max_right _ _
  · split_ifs
    · exact min_le_right _ _
    · exact max_le (by linarith) (by norm_num)

theorem runPasses_inBounds (side : String) (jit : Nat → ℚ × ℚ) :
    ∀ n i s, InBounds (s : EngineState).ball →
      InBounds (runPasses side jit i n s).ball := by
  intro n
  induction n with
  | zero => intro i s hin; exact hin
  | succ m ih =>
    intro i s hin
    unfold runPasses
    apply ih
    have : ((s.incStat side "passes" 1).jitterBall (jit i).1 (jit i).2).ball
        = (s.jitterBall (jit i).1 (jit i).2).ball := by
      unfold EngineState.jitterBall
      rw [incStat_ball]
    rw [this]
    apply jitterBall_inBounds
    exact hin

theorem simulateMinute_ball_inBounds {e : SimulationEngine} {s0 : EngineState}
    {minute : Int} {r : MinuteRand} {s2 : EngineState} {t : SimulationTick}
    (hvr : ValidMinuteRand r) (hin : InBounds s0.ball)
    (h : e.simulateMinute s0 minute r = some (s2, t)) :
    InBounds s2.ball ∧ t.ball = s2.ball := by
  obtain ⟨p4, hm, hs2, ht⟩ := simulateMinute_elim h
  have hδ : 0 ≤ r.moveDelta := le_trans (by norm_num) hvr.2.2.2.2.1
  have hmid : InBounds (e.midState s0 minute r).ball := by
    set sA := (if minute > 60 then e.updateFatigue s0 else s0) with hsA
    have hA : InBounds sA.ball := by
      rw [hsA]
      split_ifs
      · rw [updateFatigue_ball]; exact hin
      · exact hin
    have hB : InBounds (runPasses s0.possession r.jitter 0 r.passCount sA).ball :=
      runPasses_inBounds s0.possession r.jitter r.passCount 0 sA hA
    unfold SimulationEngine.midState
    rw [← hsA]
    split_ifs with hmv
    · exact moveBallForward_inBounds _ s0.possession r.moveDelta r.moveDy hδ hB
    · exact hB
  set s3 := e.midState s0 minute r with hs3
  have hp4 : InBounds p4.1.ball := by
    rcases minuteEvents_elim hm with ⟨sh, gkp, _, _, hres⟩ | ⟨f1, f2, _, _, hres⟩ |
        ⟨tk, _, hres⟩ | hres | hres
    · rcases resolveShotCore_ball e s3 s0.possession r.shot sh gkp with hb | hb
      · rw [hres, hb]; exact hmid
      · rw [hres, hb]; unfold InBounds; norm_num
    · rw [hres, simulateFoulCore_ball]; exact hmid
    · rw [hres, (tackleCore_fields s3 s0.possession tk).2.1]; exact hmid
    · rw [hres, (offsideCore_fields s3 s0.possession).2.1]; exact hmid
    · rw [hres]; exact hmid
  have hfin := finishMinute_fields e minute s0.possession r p4
  constructor
  · rw [hs2, hfin.2.2.2.2.2.2.1]; exact hp4
  · rw [ht, hs2, hfin.2.2.2.2.2.2.2.1, hfin.2.2.2.2.2.2.1]

/-- C9: the ball never leaves the pitch: `move_ball_forward` (given its
draw ranges), `jitter_ball`, and the centre-spot resets all keep
`0 ≤ x ≤ 100` and `0 ≤ y ≤ 68`, and a whole simulated minute preserves
the bounds. -/
theorem C9_ball_in_bounds (s : EngineState) (side : String) (delta dy dx2 dy2 : ℚ)
    (hd1 : 5 ≤ delta) (hd2 : delta < 15) (hdy1 : -8 ≤ dy) (hdy2 : dy < 8)
    (hin : InBounds s.ball) :
    InBounds (s.moveBallForward side delta dy).ball ∧
    InBounds (s.jitterBall dx2 dy2).ball ∧
    InBounds { x := 50, y := 34 } ∧
    (∀ (e : SimulationEngine) (minute : Int) (r : MinuteRand) (s2 : EngineState)
      (t : SimulationTick), ValidMinuteRand r →
      e.simulateMinute s minute r = some (s2, t) →
      InBounds s2.ball ∧ t.ball = s2.ball) := by
  refine ⟨moveBallForward_inBounds s side delta dy (by linarith) hin,
    jitterBall_inBounds s dx2 dy2 hin, ?_, ?_⟩
  · unfold InBounds; norm_num
  · intro e minute r s2 t hvr h
    exact simulateMinute_ball_inBounds hvr hin h

/-! ## Tick-structure lemmas (C4, C10) -/

theorem setLastStats_get?_of_lt {ts : List SimulationTick} {st : MatchStats} {i : ℕ}
    (h : i + 1 < ts.length) : (setLastStats ts st).get? i = ts.get? i := by
  induction ts generalizing i with
  | nil => simp at h
  | cons t rest ih =>
    cases rest with
    | nil => simp at h
    | cons t2 rest2 =>
      show (t :: setLastStats (t2 :: rest2) st).get? i = (t :: t2 :: rest2).get? i
      cases i with
      | zero => rfl
      | succ k =>
        show (setLastStats (t2 :: rest2) st).get? k = (t2 :: rest2).get? k
        exact ih (by simpa using h)

theorem setLastStats_filter_length (p : SimulationTick → Bool)
    (hp : ∀ t st, p { t with stats := st } = p t) (ts : List SimulationTick)
    (st : MatchStats) :
    ((setLastStats ts st).filter p).length = (ts.filter p).length := by
  induction ts with
  | nil => rfl
  | cons t rest ih =>
    cases rest with
    | nil =>
      show (([{ t with stats := st }]).filter p).length = ([t].filter p).length
      cases hpt : p t <;> simp [List.filter_cons, hp t st, hpt]
    | cons t2 rest2 =>
      show ((t :: setLastStats (t2 :: rest2) st).filter p).length
          = ((t :: t2 :: rest2).filter p).length
      cases hpt : p t <;> simp [List.filter_cons, hpt, ih]

theorem attack_ne_half_time (sd : String) : ("attack_" ++ sd) ≠ "half_time" := by
  intro h
  have h2 : ("attack_" ++ sd).data = "half_time".data := congrArg String.data h
  rw [String.data_append] at h2
  have ha : "attack_".data = ['a', 't', 't', 'a', 'c', 'k', '_'] := rfl
  have hh : "half_time".data = ['h', 'a', 'l', 'f', '_', 't', 'i', 'm', 'e'] := rfl
  rw [ha, hh] at h2
  simp at h2

theorem attack_ne_full_time (sd : String) : ("attack_" ++ sd) ≠ "full_time" := by
  intro h
  have h2 : ("attack_" ++ sd).data = "full_time".data := congrArg String.data h
  rw [String.data_append] at h2
  have ha : "attack_".data = ['a', 't', 't', 'a', 'c', 'k', '_'] := rfl
  have hh : "full_time".data = ['f', 'u', 'l', 'l', '_', 't', 'i', 'm', 'e'] := rfl
  rw [ha, hh] at h2
  simp at h2

theorem regular_phase_ne_markers {ph : String}
    (h : ph = "open_play" ∨ ∃ sd, ph = "attack_" ++ sd) :
    ph ≠ "half_time" ∧ ph ≠ "full_time" := by
  rcases h with h1 | ⟨sd, h1⟩ <;> subst h1
  · exact ⟨by decide, by decide⟩
  · exact ⟨attack_ne_half_time sd, attack_ne_full_time sd⟩

theorem firstHalfSchedule_minutes (ih1 : Nat) (o : Nat → MinuteRand) :
    (firstHalfSchedule ih1 o).map (fun q => q.1)
      = (List.range (45 + ih1)).map (fun i : Nat => (i + 1 : Int)) := by
  unfold firstHalfSchedule
  rw [List.map_map]
  rfl

theorem secondHalfSchedule_minutes (ih1 ih2 : Nat) (o : Nat → MinuteRand) :
    (secondHalfSchedule ih1 ih2 o).map (fun q => q.1)
      = (List.range (45 + ih2)).map (fun i : Nat => (i + 46 : Int)) := by
  unfold secondHalfSchedule
  rw [List.map_map]
  rfl

theorem simulate_minutes_map {e : SimulationEngine} {ih1 ih2 : Nat} {o : Nat → MinuteRand}
    {ticks : List SimulationTick} (hsim : e.simulate ih1 ih2 o = some ticks) :
    ticks.length = (45 + ih1) + (45 + ih2) + 2 ∧
    ticks.map (fun t => t.minute)
      = ((List.range (45 + ih1)).map (fun i : Nat => (i + 1 : Int)))
        ++ [(45 : Int)]
        ++ ((List.range (45 + ih2)).map (fun i : Nat => (i + 46 : Int)))
        ++ [(90 : Int)] := by
  obtain ⟨s1, ts1, s2, ts2, h1, h2, hticks⟩ := simulate_elim hsim
  have hsh1 := runMinutes_shape h1
  have hsh2 := runMinutes_shape h2
  have hlen1 : ts1.length = 45 + ih1 := by
    rw [hsh1.1]
    simp [firstHalfSchedule]
  have hlen2 : ts2.length = 45 + ih2 := by
    rw [hsh2.1]
    simp [secondHalfSchedule]
  have hmin1 : ts1.map (fun t => t.minute)
      = (List.range (45 + ih1)).map (fun i : Nat => (i + 1 : Int)) := by
    rw [hsh1.2.1, firstHalfSchedule_minutes]
  have hmin2 : ts2.map (fun t => t.minute)
      = (List.range (45 + ih2)).map (fun i : Nat => (i + 46 : Int)) := by
    rw [hsh2.2.1, secondHalfSchedule_minutes]
  have hmf : ∀ (t : SimulationTick) (st : MatchStats),
      ({ t with stats := st } : SimulationTick).minute = t.minute := fun _ _ => rfl
  constructor
  · rw [hticks, setLastStats_length]
    unfold combinedTicks
    simp [hlen1, hlen2]
    omega
  · rw [hticks, setLastStats_map (fun t => t.minute) hmf]
    unfold combinedTicks
    simp only [List.map_append]
    rw [hmin1, hmin2]
    have hht : (e.halfTimeTick s1).minute = (45 : Int) := rfl
    have hft : (e.fullTimeTick s2).minute = (90 : Int) := rfl
    simp [hht, hft]

/-- C4: a run emits exactly `45+ih1` first-half regular ticks (minutes
`1..=45+ih1`), `45+ih2` second-half regular ticks (minutes
`46..=90+ih2`), and exactly two marker ticks: `half_time` at minute 45
and `full_time` at minute 90, both with empty events, where the injury
draws satisfy `ih1 ∈ [1,4]` and `ih2 ∈ [1,5]`. -/
theorem C4_tick_counts (e : SimulationEngine) (ih1 ih2 : Nat) (o : Nat → MinuteRand)
    (ticks : List SimulationTick)
    (hi1a : 1 ≤ ih1) (hi1b : ih1 ≤ 4) (hi2a : 1 ≤ ih2) (hi2b : ih2 ≤ 5)
    (hsim : e.simulate ih1 ih2 o = some ticks) :
    ticks.length = (45 + ih1) + (45 + ih2) + 2 ∧
    ticks.map (fun t => t.minute)
      = ((List.range (45 + ih1)).map (fun i : Nat => (i + 1 : Int)))
        ++ [(45 : Int)]
        ++ ((List.range (45 + ih2)).map (fun i : Nat => (i + 46 : Int)))
        ++ [(90 : Int)] ∧
    (∃ tht, ticks.get? (45 + ih1) = some tht ∧ tht.phase = "half_time" ∧
      tht.minute = 45 ∧ tht.events = []) ∧
    (∃ tft, ticks.getLast? = some tft ∧ tft.phase = "full_time" ∧
      tft.minute = 90 ∧ tft.events = []) ∧
    (ticks.filter (fun t => t.phase == "half_time")).length = 1 ∧
    (ticks.filter (fun t => t.phase == "full_time")).length = 1 ∧
    (ticks.filter (fun t => !(t.phase == "half_time")
      && !(t.phase == "full_time"))).length = (45 + ih1) + (45 + ih2) := by
  obtain ⟨s1, ts1, s2, ts2, h1, h2, hticks⟩ := simulate_elim hsim
  have hmm := simulate_minutes_map hsim
  have hsh1 := runMinutes_shape h1
  have hsh2 := runMinutes_shape h2
  have hlen1 : ts1.length = 45 + ih1 := by
    rw [hsh1.1]; simp [firstHalfSchedule]
  have hlen2 : ts2.length = 45 + ih2 := by
    rw [hsh2.1]; simp [secondHalfSchedule]
  have hclen : (combinedTicks e s1 ts1 s2 ts2).length
      = (45 + ih1) + 1 + (45 + ih2) + 1 := by
    unfold combinedTicks
    simp [hlen1, hlen2]
    omega
  refine ⟨hmm.1, hmm.2, ?_, ?_, ?_, ?_, ?_⟩
  · -- the half-time marker at index 45 + ih1
    have hidx : (45 + ih1) + 1 < (combinedTicks e s1 ts1 s2 ts2).length := by
      rw [hclen]; omega
    have hget : ticks.get? (45 + ih1) = (combinedTicks e s1 ts1 s2 ts2).get? (45 + ih1) := by
      rw [hticks]
      exact setLastStats_get?_of_lt hidx
    have hcombined : (combinedTicks e s1 ts1 s2 ts2)
        = ts1 ++ ([e.halfTimeTick s1] ++ (ts2 ++ [e.fullTimeTick s2])) := by
      unfold combinedTicks
      simp [List.append_assoc]
    have hget2 : (combinedTicks e s1 ts1 s2 ts2).get? (45 + ih1)
        = some (e.halfTimeTick s1) := by
      rw [hcombined]
      rw [List.get?_append_right (by rw [hlen1] : ts1.length ≤ 45 + ih1)]
      rw [hlen1]
      simp
    exact ⟨e.halfTimeTick s1, by rw [hget, hget2], rfl, rfl, rfl⟩
  · -- the full-time marker is the last tick
    have hne : combinedTicks e s1 ts1 s2 ts2 ≠ [] := by
      intro hx
      rw [hx] at hclen
      simp at hclen
    obtain ⟨tl, htl1, htl2⟩ := setLastStats_getLast
      (finalStatsOf e s2 (combinedTicks e s1 ts1 s2 ts2)) hne
    have htlft : tl = e.fullTimeTick s2 := by
      have : (combinedTicks e s1 ts1 s2 ts2).getLast? = some (e.fullTimeTick s2) := by
        unfold combinedTicks
        exact List.getLast?_concat _
      rw [this] at htl1
      exact Option.some.inj htl1.symm
    subst htlft
    refine ⟨_, by rw [hticks]; exact htl2, rfl, rfl, rfl⟩
  · -- exactly one half_time tick
    rw [hticks, setLastStats_filter_length (fun t => t.phase == "half_time")
      (fun t st => rfl)]
    unfold combinedTicks
    simp only [List.filter_append]
    have hf1 : ts1.filter (fun t => t.phase == "half_time") = [] := by
      apply List.filter_eq_nil_iff.mpr
      intro t ht
      have := (regular_phase_ne_markers (hsh1.2.2 t ht)).1
      simp [this]
    have hf2 : ts2.filter (fun t => t.phase == "half_time") = [] := by
      apply List.filter_eq_nil_iff.mpr
      intro t ht
      have := (regular_phase_ne_markers (hsh2.2.2 t ht)).1
      simp [this]
    rw [hf1, hf2]
    simp [SimulationEngine.halfTimeTick, SimulationEngine.fullTimeTick]
  · -- exactly one full_time tick
    rw [hticks, setLastStats_filter_length (fun t => t.phase == "full_time")
      (fun t st => rfl)]
    unfold combinedTicks
    simp only [List.filter_append]
    have hf1 : ts1.filter (fun t => t.phase == "full_time") = [] := by
      apply List.filter_eq_nil_iff.mpr
      intro t ht
      have := (regular_phase_ne_markers (hsh1.2.2 t ht)).2
      simp [this]
    have hf2 : ts2.filter (fun t => t.phase == "full_time") = [] := by
      apply List.filter_eq_nil_iff.mpr
      intro t ht
      have := (regular_phase_ne_markers (hsh2.2.2 t ht)).2
      simp [this]
    rw [hf1, hf2]
    simp [SimulationEngine.halfTimeTick, SimulationEngine.fullTimeTick]
  · -- regular (non-marker) tick count
    rw [hticks, setLastStats_filter_length (fun t => !(t.phase == "half_time")
      && !(t.phase == "full_time")) (fun t st => rfl)]
    unfold combinedTicks
    simp only [List.filter_append]
    have hf1 : ts1.filter (fun t => !(t.phase == "half_time")
        && !(t.phase == "full_time")) = ts1 := by
      apply List.filter_eq_self.mpr
      intro t ht
      have hph := regular_phase_ne_markers (hsh1.2.2 t ht)
      simp [hph.1, hph.2]
    have hf2 : ts2.filter (fun t => !(t.phase == "half_time")
        && !(t.phase == "full_time")) = ts2 := by
      apply List.filter_eq_self.mpr
      intro t ht
      have hph := regular_phase_ne_markers (hsh2.2.2 t ht)
      simp [hph.1, hph.2]
    rw [hf1, hf2]
    simp [SimulationEngine.halfTimeTick, SimulationEngine.fullTimeTick, hlen1, hlen2]

/-- C10: the emitted minute sequence is neither strictly increasing nor
duplicate-free: the tick right before the half-time marker carries
minute `45+ih1 ≥ 46` while the marker itself carries minute 45, and
every minute in `46..=45+ih1` appears once in the first half and again
in the second half. -/
theorem C10_minutes_not_monotone_not_unique (e : SimulationEngine) (ih1 ih2 : Nat)
    (o : Nat → MinuteRand) (ticks : List SimulationTick)
    (hi1a : 1 ≤ ih1) (hi1b : ih1 ≤ 4) (hi2a : 1 ≤ ih2) (hi2b : ih2 ≤ 5)
    (hsim : e.simulate ih1 ih2 o = some ticks) :
    (ticks.map (fun t => t.minute)).get? (44 + ih1) = some ((45 + ih1 : ℕ) : Int) ∧
    (ticks.map (fun t => t.minute)).get? (45 + ih1) = some (45 : Int) ∧
    (46 : Int) ≤ ((45 + ih1 : ℕ) : Int) ∧
    (∀ m : Int, 46 ≤ m → m ≤ 45 + (ih1 : Int) →
      2 ≤ (ticks.map (fun t => t.minute)).count m) ∧
    ¬ List.Sorted (· < ·) (ticks.map (fun t => t.minute)) ∧
    ¬ (ticks.map (fun t => t.minute)).Nodup := by
  obtain ⟨hlen, hmap⟩ := simulate_minutes_map hsim
  set A := (List.range (45 + ih1)).map (fun i : Nat => (i + 1 : Int)) with hA
  set B := (List.range (45 + ih2)).map (fun i : Nat => (i + 46 : Int)) with hB
  have hAlen : A.length = 45 + ih1 := by rw [hA]; simp
  have hBlen : B.length = 45 + ih2 := by rw [hB]; simp
  have hg1 : (ticks.map (fun t => t.minute)).get? (44 + ih1)
      = some ((45 + ih1 : ℕ) : Int) := by
    rw [hmap]
    rw [List.get?_append (by simp [hAlen] <;> omega :
      44 + ih1 < ((A ++ [(45 : Int)]) ++ B).length)]
    rw [List.get?_append (by simp [hAlen] <;> omega :
      44 + ih1 < (A ++ [(45 : Int)]).length)]
    rw [List.get?_append (by simp [hAlen] <;> omega : 44 + ih1 < A.length)]
    rw [hA, List.get?_map]
    rw [List.get?_range (by omega : 44 + ih1 < 45 + ih1)]
    show Option.map (fun i : Nat => (i + 1 : Int)) (some (44 + ih1))
      = some ((45 + ih1 : ℕ) : Int)
    rw [Option.map_some']
    congr 1
    push_cast
    ring
  have hg2 : (ticks.map (fun t => t.minute)).get? (45 + ih1) = some (45 : Int) := by
    rw [hmap]
    rw [List.get?_append (by simp [hAlen, hBlen] <;> omega :
      45 + ih1 < ((A ++ [(45 : Int)]) ++ B).length)]
    rw [List.get?_append (by simp [hAlen] <;> omega :
      45 + ih1 < (A ++ [(45 : Int)]).length)]
    rw [List.get?_append_right (by simp [hAlen] : A.length ≤ 45 + ih1)]
    rw [hAlen]
    simp
  have h46 : (46 : Int) ≤ ((45 + ih1 : ℕ) : Int) := by push_cast; omega
  have hcount : ∀ m : Int, 46 ≤ m → m ≤ 45 + (ih1 : Int) →
      2 ≤ (ticks.map (fun t => t.minute)).count m := by
    intro m hm1 hm2
    have hmA : m ∈ A := by
      rw [hA]
      apply List.mem_map.mpr
      refine ⟨(m - 1).toNat, List.mem_range.mpr (by omega), by omega⟩
    have hmB : m ∈ B := by
      rw [hB]
      apply List.mem_map.mpr
      refine ⟨(m - 46).toNat, List.mem_range.mpr (by omega), by omega⟩
    rw [hmap]
    have hcA : 1 ≤ A.count m := List.count_pos_iff_mem.mpr hmA
    have hcB : 1 ≤ B.count m := List.count_pos_iff_mem.mpr hmB
    rw [List.count_append, List.count_append, List.count_append]
    omega
  refine ⟨hg1, hg2, h46, hcount, ?_, ?_⟩
  · -- not sorted: descent at the half-time marker
    intro hsorted
    have hlm : (ticks.map (fun t => t.minute)).length = 45 + ih1 + (45 + ih2) + 2 := by
      rw [List.length_map, hlen]
    have hi1 : 44 + ih1 < (ticks.map (fun t => t.minute)).length := by
      rw [hlm]; omega
    have hi2 : 45 + ih1 < (ticks.map (fun t => t.minute)).length := by
      rw [hlm]; omega
    have hv1 : (ticks.map (fun t => t.minute)).get ⟨44 + ih1, hi1⟩
        = ((45 + ih1 : ℕ) : Int) := by
      have := List.get?_eq_get hi1
      rw [this] at hg1
      exact Option.some.inj hg1
    have hv2 : (ticks.map (fun t => t.minute)).get ⟨45 + ih1, hi2⟩ = (45 : Int) := by
      have := List.get?_eq_get hi2
      rw [this] at hg2
      exact Option.some.inj hg2
    have := hsorted.rel_get_of_lt
      (by simp [Fin.lt_def] : (⟨44 + ih1, hi1⟩ : Fin _) < ⟨45 + ih1, hi2⟩)
    rw [hv1, hv2] at this
    omega
  · -- not duplicate-free: minute 46 appears twice
    intro hnodup
    have := List.nodup_iff_count_le_one.mp hnodup (46 : Int)
    have h2 := hcount 46 (by norm_num) (by push_cast; omega)
    omega

/-! ## Possession percentage (C5) -/

/-- C5: after post-processing, the final tick's home possession
percentage is the rounded share of ticks (markers included) with home
possession, the away percentage is its complement, and the two sum to
exactly 100. -/
theorem C5_possession_sums_to_100 (e : SimulationEngine) (ih1 ih2 : Nat)
    (o : Nat → MinuteRand) (ticks : List SimulationTick)
    (hsim : e.simulate ih1 ih2 o = some ticks) :
    ∃ tl, ticks.getLast? = some tl ∧
      tl.stats.home.possession_pct
        = f64round (100 * ((ticks.filter (fun t => t.possession == "home")).length : ℚ)
            / (ticks.length : ℚ)) ∧
      tl.stats.away.possession_pct = 100 - tl.stats.home.possession_pct ∧
      tl.stats.home.possession_pct + tl.stats.away.possession_pct = 100 := by
  obtain ⟨s1, ts1, s2, ts2, h1, h2, hticks⟩ := simulate_elim hsim
  have hne : combinedTicks e s1 ts1 s2 ts2 ≠ [] := by
    unfold combinedTicks
    simp
  obtain ⟨tl, htl1, htl2⟩ := setLastStats_getLast
    (finalStatsOf e s2 (combinedTicks e s1 ts1 s2 ts2)) hne
  have hlen : ticks.length = (combinedTicks e s1 ts1 s2 ts2).length := by
    rw [hticks, setLastStats_length]
  have hfilt : (ticks.filter (fun t => t.possession == "home")).length
      = ((combinedTicks e s1 ts1 s2 ts2).filter (fun t => t.possession == "home")).length := by
    rw [hticks,
      setLastStats_filter_length (fun t => t.possession == "home") (fun t st => rfl)]
  refine ⟨_, by rw [hticks]; exact htl2, ?_, ?_, ?_⟩
  · show (finalStatsOf e s2 (combinedTicks e s1 ts1 s2 ts2)).home.possession_pct = _
    unfold finalStatsOf
    simp only []
    rw [hlen, hfilt]
    congr 1
    ring
  · show (finalStatsOf e s2 (combinedTicks e s1 ts1 s2 ts2)).away.possession_pct
      = 100 - (finalStatsOf e s2 (combinedTicks e s1 ts1 s2 ts2)).home.possession_pct
    unfold finalStatsOf
    simp only []
  · show (finalStatsOf e s2 (combinedTicks e s1 ts1 s2 ts2)).home.possession_pct
      + (finalStatsOf e s2 (combinedTicks e s1 ts1 s2 ts2)).away.possession_pct = 100
    unfold finalStatsOf
    simp only []
    ring

/-! ## Fatigue (C7) -/

theorem fatigueStep_fatigueOf_self (e : SimulationEngine) (s : EngineState) (q : Player) :
    (e.fatigueStep s q).fatigueOf q.id
      = min (s.fatigueOf q.id + 0.01 * max (1 - e.getAttr s q.id "stamina" / 40) 0.2) 1 := by
  unfold SimulationEngine.fatigueStep EngineState.fatigueOf
  simp only []
  rw [getEntry_setEntry_self]

theorem fatigueStep_fatigueOf_ne (e : SimulationEngine) (s : EngineState) (q : Player)
    (id : Int) (h : id ≠ q.id) :
    (e.fatigueStep s q).fatigueOf id = s.fatigueOf id := by
  unfold SimulationEngine.fatigueStep EngineState.fatigueOf
  simp only []
  exact getEntry_setEntry_ne _ _ _ _ _ (fun hx => h hx.symm)

theorem fatigueRate_nonneg (x : ℚ) : 0 ≤ 0.01 * max (1 - x / 40) 0.2 := by
  have h1 : (0.2 : ℚ) ≤ max (1 - x / 40) 0.2 := le_max_right _ _
  nlinarith

theorem fatigueStep_mono (e : SimulationEngine) (s : EngineState) (q : Player) (id : Int)
    (hr : 0 ≤ s.fatigueOf id ∧ s.fatigueOf id ≤ 1) :
    s.fatigueOf id ≤ (e.fatigueStep s q).fatigueOf id ∧
    0 ≤ (e.fatigueStep s q).fatigueOf id ∧ (e.fatigueStep s q).fatigueOf id ≤ 1 := by
  by_cases hid : id = q.id
  · subst hid
    rw [fatigueStep_fatigueOf_self]
    have hrate := fatigueRate_nonneg (e.getAttr s q.id "stamina")
    refine ⟨le_min (by linarith) hr.2, le_min (by linarith) (by norm_num), min_le_right _ _⟩
  · rw [fatigueStep_fatigueOf_ne e s q id hid]
    exact ⟨le_refl _, hr.1, hr.2⟩

theorem foldl_fatigueStep_mono (e : SimulationEngine) :
    ∀ (l : List Player) (s : EngineState) (id : Int),
      (0 ≤ s.fatigueOf id ∧ s.fatigueOf id ≤ 1) →
      s.fatigueOf id ≤ (l.foldl e.fatigueStep s).fatigueOf id ∧
      0 ≤ (l.foldl e.fatigueStep s).fatigueOf id ∧
      (l.foldl e.fatigueStep s).fatigueOf id ≤ 1 := by
  intro l
  induction l with
  | nil => intro s id hr; exact ⟨le_refl _, hr.1, hr.2⟩
  | cons q rest ih =>
    intro s id hr
    have hstep := fatigueStep_mono e s q id hr
    have := ih (e.fatigueStep s q) id ⟨hstep.2.1, hstep.2.2⟩
    exact ⟨le_trans hstep.1 this.1, this.2.1, this.2.2⟩

theorem foldl_fatigueStep_out (e : SimulationEngine) :
    ∀ (l : List Player) (s : EngineState) (id : Int),
      id ∉ l.map (fun p => p.id) →
      (l.foldl e.fatigueStep s).fatigueOf id = s.fatigueOf id := by
  intro l
  induction l with
  | nil => intro s id _; rfl
  | cons q rest ih =>
    intro s id hid
    simp only [List.map_cons, List.mem_cons] at hid
    push_neg at hid
    rw [List.foldl_cons, ih (e.fatigueStep s q) id (by simpa using hid.2),
      fatigueStep_fatigueOf_ne e s q id hid.1]

theorem getAttr_congr_at (e : SimulationEngine) {s1 s2 : EngineState} (id : Int)
    (a : String) (h : s1.fatigueOf id = s2.fatigueOf id) :
    e.getAttr s1 id a = e.getAttr s2 id a := by
  unfold SimulationEngine.getAttr
  unfold EngineState.fatigueOf at h
  rw [h]

theorem foldl_fatigueStep_formula (e : SimulationEngine) :
    ∀ (l : List Player) (s : EngineState),
      (l.map (fun p => p.id)).Nodup →
      ∀ p ∈ l, (l.foldl e.fatigueStep s).fatigueOf p.id
        = min (s.fatigueOf p.id
            + 0.01 * max (1 - e.getAttr s p.id "stamina" / 40) 0.2) 1 := by
  intro l
  induction l with
  | nil => intro s _ p hp; simp at hp
  | cons q rest ih =>
    intro s hnd p hp
    simp only [List.map_cons, List.nodup_cons] at hnd
    rcases List.mem_cons.mp hp with h1 | h1
    · subst h1
      rw [List.foldl_cons]
      rw [foldl_fatigueStep_out e rest (e.fatigueStep s p) p.id hnd.1]
      exact fatigueStep_fatigueOf_self e s p
    · have hne : p.id ≠ q.id := by
        intro hx
        apply hnd.1
        rw [← hx]
        exact List.mem_map.mpr ⟨p, h1, rfl⟩
      rw [List.foldl_cons]
      rw [ih (e.fatigueStep s q) hnd.2 p h1]
      rw [fatigueStep_fatigueOf_ne e s q p.id hne]
      rw [getAttr_congr_at e p.id "stamina" (fatigueStep_fatigueOf_ne e s q p.id hne)]

theorem simulateMinute_fatigue {e : SimulationEngine} {s0 : EngineState} {minute : Int}
    {r : MinuteRand} {s2 : EngineState} {t : SimulationTick}
    (h : e.simulateMinute s0 minute r = some (s2, t)) :
    s2.player_fatigue = (if minute > 60 then e.updateFatigue s0 else s0).player_fatigue := by
  obtain ⟨p4, hm, hs2, ht⟩ := simulateMinute_elim h
  have hmid := midState_facts e s0 minute r
  set s3 := e.midState s0 minute r with hs3
  have hfin := finishMinute_fields e minute s0.possession r p4
  have hs2f : s2.player_fatigue = p4.1.player_fatigue := by
    rw [hs2]; exact hfin.2.2.2.2.2.2.2.2.1
  have hp4f : p4.1.player_fatigue = s3.player_fatigue := by
    rcases minuteEvents_elim hm with ⟨sh, gkp, _, _, hres⟩ | ⟨f1, f2, _, _, hres⟩ |
        ⟨tk, _, hres⟩ | hres | hres
    · rw [hres]; exact resolveShotCore_fatigue e s3 s0.possession r.shot sh gkp
    · rw [hres]; exact simulateFoulCore_fatigue e s3 s0.possession r.foul f1 f2
    · rw [hres]; exact (tackleCore_fields s3 s0.possession tk).2.2.1
    · rw [hres]; exact (offsideCore_fields s3 s0.possession).2.2.1
    · rw [hres]
  rw [hs2f, hp4f]
  exact hmid.2.2.2.2.2.2

theorem simulateMinute_fatigue_mono {e : SimulationEngine} {s0 : EngineState}
    {minute : Int} {r : MinuteRand} {s2 : EngineState} {t : SimulationTick}
    (hr : ∀ id, 0 ≤ s0.fatigueOf id ∧ s0.fatigueOf id ≤ 1)
    (h : e.simulateMinute s0 minute r = some (s2, t)) :
    ∀ id, s0.fatigueOf id ≤ s2.fatigueOf id ∧
      0 ≤ s2.fatigueOf id ∧ s2.fatigueOf id ≤ 1 := by
  intro id
  have hf := simulateMinute_fatigue h
  have hfo : s2.fatigueOf id = (if minute > 60 then e.updateFatigue s0 else s0).fatigueOf id := by
    unfold EngineState.fatigueOf
    rw [hf]
  rw [hfo]
  split_ifs
  · exact foldl_fatigueStep_mono e _ s0 id (hr id)
  · exact ⟨le_refl _, (hr id).1, (hr id).2⟩

theorem runMinutes_fatigue_mono {e : SimulationEngine} {sb : EngineState}
    {L : List (Int × MinuteRand)} {s3 : EngineState} {ts : List SimulationTick}
    (hr : ∀ id, 0 ≤ sb.fatigueOf id ∧ sb.fatigueOf id ≤ 1)
    (h : e.runMinutes sb L = some (s3, ts)) :
    ∀ id, sb.fatigueOf id ≤ s3.fatigueOf id ∧
      0 ≤ s3.fatigueOf id ∧ s3.fatigueOf id ≤ 1 := by
  induction L generalizing sb ts with
  | nil =>
    unfold SimulationEngine.runMinutes at h
    simp at h
    intro id
    rw [← h.1]
    exact ⟨le_refl _, (hr id).1, (hr id).2⟩
  | cons hd tl ih =>
    obtain ⟨m, r⟩ := hd
    unfold SimulationEngine.runMinutes at h
    simp only [Option.bind_eq_bind] at h
    rw [Option.bind_eq_some] at h
    obtain ⟨⟨s1, t⟩, hmin, h⟩ := h
    rw [Option.bind_eq_some] at h
    obtain ⟨⟨s2b, ts2⟩, hrest, h⟩ := h
    simp only [Option.some.injEq, Prod.mk.injEq] at h
    obtain ⟨hs2, hts⟩ := h
    subst hs2
    intro id
    have hm1 := simulateMinute_fatigue_mono hr hmin id
    have hrec := ih (fun id2 => ⟨(simulateMinute_fatigue_mono hr hmin id2).2.1,
      (simulateMinute_fatigue_mono hr hmin id2).2.2⟩) hrest id
    exact ⟨le_trans hm1.1 hrec.1, hrec.2.1, hrec.2.2⟩

/-- C7: fatigue only changes in minutes `> 60`; under the `[0,1]` range
invariant it is monotonically non-decreasing and stays in `[0,1]`, both
per minute and along any run of minutes (never reset mid-match); in a
minute `> 60` each starter's fatigue increases by exactly
`0.01 · max(0.2, 1 − stamina/40)`, capped at 1. -/
theorem C7_fatigue_dynamics (e : SimulationEngine) (s0 : EngineState) (minute : Int)
    (r : MinuteRand) (s2 : EngineState) (t : SimulationTick)
    (h : e.simulateMinute s0 minute r = some (s2, t)) :
    (¬ minute > 60 → s2.player_fatigue = s0.player_fatigue) ∧
    ((∀ id, 0 ≤ s0.fatigueOf id ∧ s0.fatigueOf id ≤ 1) →
      ∀ id, s0.fatigueOf id ≤ s2.fatigueOf id ∧
        0 ≤ s2.fatigueOf id ∧ s2.fatigueOf id ≤ 1) ∧
    (minute > 60 →
      ((s0.home_starters ++ s0.away_starters).map (fun p => p.id)).Nodup →
      ∀ p ∈ s0.home_starters ++ s0.away_starters,
        s2.fatigueOf p.id
          = min (s0.fatigueOf p.id
              + 0.01 * max (1 - e.getAttr s0 p.id "stamina" / 40) 0.2) 1) ∧
    (∀ (sb : EngineState) (L : List (Int × MinuteRand)) (s3 : EngineState)
      (ts : List SimulationTick),
      (∀ id, 0 ≤ sb.fatigueOf id ∧ sb.fatigueOf id ≤ 1) →
      e.runMinutes sb L = some (s3, ts) →
      ∀ id, sb.fatigueOf id ≤ s3.fatigueOf id ∧
        0 ≤ s3.fatigueOf id ∧ s3.fatigueOf id ≤ 1) := by
  have hf := simulateMinute_fatigue h
  refine ⟨?_, ?_, ?_, ?_⟩
  · intro hle
    rw [hf, if_neg hle]
  · intro hr
    exact fun id => simulateMinute_fatigue_mono hr h id
  · intro hgt hnd p hp
    have : s2.fatigueOf p.id = (e.updateFatigue s0).fatigueOf p.id := by
      unfold EngineState.fatigueOf
      rw [hf, if_pos hgt]
    rw [this]
    exact foldl_fatigueStep_formula e _ s0 hnd p hp
  · intro sb L s3 ts hr hrun
    exact runMinutes_fatigue_mono hr hrun

/-! ## Send-off exclusion across a whole run (C1) -/

theorem combined_get? (e : SimulationEngine) (s1 : EngineState) (ts1 : List SimulationTick)
    (s2 : EngineState) (ts2 : List SimulationTick) :
    (∀ i, i < ts1.length → (combinedTicks e s1 ts1 s2 ts2).get? i = ts1.get? i) ∧
    (combinedTicks e s1 ts1 s2 ts2).get? ts1.length = some (e.halfTimeTick s1) ∧
    (∀ k, k < ts2.length →
      (combinedTicks e s1 ts1 s2 ts2).get? (ts1.length + 1 + k) = ts2.get? k) ∧
    (combinedTicks e s1 ts1 s2 ts2).get? (ts1.length + 1 + ts2.length)
      = some (e.fullTimeTick s2) ∧
    (combinedTicks e s1 ts1 s2 ts2).length = ts1.length + 1 + ts2.length + 1 := by
  have hco : combinedTicks e s1 ts1 s2 ts2
      = ts1 ++ ([e.halfTimeTick s1] ++ (ts2 ++ [e.fullTimeTick s2])) := by
    unfold combinedTicks
    simp [List.append_assoc]
  refine ⟨?_, ?_, ?_, ?_, ?_⟩
  · intro i hi
    rw [hco, List.get?_append (by simpa using hi)]
  · rw [hco, List.get?_append_right (le_refl _)]
    simp
  · intro k hk
    rw [hco, List.get?_append_right (by omega : ts1.length ≤ ts1.length + 1 + k)]
    have : ts1.length + 1 + k - ts1.length = k + 1 := by omega
    rw [this]
    show (e.halfTimeTick s1 :: (ts2 ++ [e.fullTimeTick s2])).get? (k + 1) = ts2.get? k
    rw [List.get?_cons_succ]
    rw [List.get?_append (by simpa using hk)]
  · rw [hco, List.get?_append_right (by omega : ts1.length ≤ ts1.length + 1 + ts2.length)]
    have : ts1.length + 1 + ts2.length - ts1.length = ts2.length + 1 := by omega
    rw [this]
    show (e.halfTimeTick s1 :: (ts2 ++ [e.fullTimeTick s2])).get? (ts2.length + 1)
      = some (e.fullTimeTick s2)
    rw [List.get?_cons_succ]
    rw [List.get?_append_right (le_refl _)]
    simp
  · rw [hco]
    simp
    omega

theorem events_get?_transfer {ticks combined : List SimulationTick} {fs : MatchStats}
    (hticks : ticks = setLastStats combined fs) (k : ℕ) :
    (ticks.get? k).map (fun t => t.events) = (combined.get? k).map (fun t => t.events) := by
  have hmap : ticks.map (fun t => t.events) = combined.map (fun t => t.events) := by
    rw [hticks]
    exact setLastStats_map (fun t => t.events) (fun t st => rfl) combined fs
  have h1 := List.get?_map (fun t => t.events) ticks k
  have h2 := List.get?_map (fun t => t.events) combined k
  rw [← h1, ← h2, hmap]

/-- C1 (amended): once a player is sent off (a `second_yellow` or
`red_card` event), that player is excluded from all future selection via
`pick_player`/`pick_weighted_player` and so never appears as the
`primary_player` of any actor-type event in a later tick — where the
actor types exclude `save`, because `pick_goalkeeper` does not filter
sent-off players. Requires pairwise-distinct first-eleven names so that
event name strings identify players. -/
theorem C1_sent_off_never_later_actor (e : SimulationEngine) (ih1 ih2 : Nat)
    (o : Nat → MinuteRand) (ticks : List SimulationTick)
    (hnames : DistinctNames e)
    (hsim : e.simulate ih1 ih2 o = some ticks)
    (i j : ℕ) (hij : i < j) (ti tj : SimulationTick)
    (hti : ticks.get? i = some ti) (htj : ticks.get? j = some tj)
    (ev : SimulationEvent) (hev : ev ∈ ti.events)
    (hty : ev.event_type = "second_yellow" ∨ ev.event_type = "red_card")
    (ev2 : SimulationEvent) (hev2 : ev2 ∈ tj.events)
    (hty2 : ev2.event_type ∈ actorEventTypes) :
    ev2.primary_player ≠ ev.primary_player := by
  obtain ⟨s1, ts1, s2, ts2, h1, h2, hticks⟩ := simulate_elim hsim
  have hcg := combined_get? e s1 ts1 s2 ts2
  have hjlt : j < ts1.length + 1 + ts2.length + 1 := by
    rcases List.get?_eq_some.mp htj with ⟨hh, _⟩
    rw [hticks, setLastStats_length, hcg.2.2.2.2] at hh
    exact hh
  have hilt : i < ts1.length + 1 + ts2.length + 1 := by omega
  have hsent1b : (secondHalfState s1).player_sent_off = s1.player_sent_off := rfl
  -- events of tick at any index agree with the pre-postprocessing list
  have hevti : ∀ (k : ℕ) (tk : SimulationTick) (tk2 : SimulationTick),
      ticks.get? k = some tk →
      (combinedTicks e s1 ts1 s2 ts2).get? k = some tk2 → tk2.events = tk.events := by
    intro k tk tk2 ha hb
    have := events_get?_transfer hticks k
    rw [ha, hb] at this
    simpa using this.symm
  -- case split on where i falls
  rcases (by omega : i < ts1.length ∨ i = ts1.length ∨
      (ts1.length < i ∧ i < ts1.length + 1 + ts2.length) ∨
      i = ts1.length + 1 + ts2.length) with hi1 | hi1 | ⟨hi1a, hi1b⟩ | hi1
  · -- send-off happened in the first half
    have hgi : (combinedTicks e s1 ts1 s2 ts2).get? i = ts1.get? i := hcg.1 i hi1
    obtain ⟨ti2, hti2⟩ : ∃ x, ts1.get? i = some x := by
      cases hx : ts1.get? i with
      | none => rw [List.get?_eq_none] at hx; omega
      | some x => exact ⟨x, rfl⟩
    have heveq : ti2.events = ti.events := hevti i ti ti2 hti (by rw [hgi, hti2])
    obtain ⟨p, hpmem, hpprim, hpsent, hlater⟩ :=
      runMinutes_sendoff hnames h1 i ti2 hti2 ev (by rw [heveq]; exact hev) hty
    rw [hpprim]
    -- j is after the send-off: half-time marker, second half, or full time
    rcases (by omega : j < ts1.length ∨ j = ts1.length ∨
        (ts1.length < j ∧ j < ts1.length + 1 + ts2.length) ∨
        j = ts1.length + 1 + ts2.length) with hj1 | hj1 | ⟨hj1a, hj1b⟩ | hj1
    · obtain ⟨tj2, htj2⟩ : ∃ x, ts1.get? j = some x := by
        cases hx : ts1.get? j with
        | none => rw [List.get?_eq_none] at hx; omega
        | some x => exact ⟨x, rfl⟩
      have hveq : tj2.events = tj.events := hevti j tj tj2 htj (by rw [hcg.1 j hj1, htj2])
      exact hlater j tj2 hij htj2 ev2 (by rw [hveq]; exact hev2) hty2
    · have hveq : (e.halfTimeTick s1).events = tj.events :=
        hevti j tj (e.halfTimeTick s1) htj (by rw [hj1]; exact hcg.2.1)
      have : tj.events = [] := by rw [← hveq]; rfl
      rw [this] at hev2
      simp at hev2
    · obtain ⟨k, hk⟩ : ∃ k, j = ts1.length + 1 + k := ⟨j - ts1.length - 1, by omega⟩
      have hklt : k < ts2.length := by omega
      obtain ⟨tj2, htj2⟩ : ∃ x, ts2.get? k = some x := by
        cases hx : ts2.get? k with
        | none => rw [List.get?_eq_none] at hx; omega
        | some x => exact ⟨x, rfl⟩
      have hveq : tj2.events = tj.events := hevti j tj tj2 htj
        (by rw [hk, hcg.2.2.1 k hklt, htj2])
      have hsentb : (secondHalfState s1).sentOff p.id = true := by
        unfold EngineState.sentOff
        rw [hsent1b]
        exact hpsent
      exact runMinutes_noActor hnames h2 p hpmem hsentb tj2
        (List.get?_mem htj2) ev2 (by rw [hveq]; exact hev2) hty2
    · have hveq : (e.fullTimeTick s2).events = tj.events :=
        hevti j tj (e.fullTimeTick s2) htj (by rw [hj1]; exact hcg.2.2.2.1)
      have : tj.events = [] := by rw [← hveq]; rfl
      rw [this] at hev2
      simp at hev2
  · -- the half-time marker has no events
    have hveq : (e.halfTimeTick s1).events = ti.events :=
      hevti i ti (e.halfTimeTick s1) hti (by rw [hi1]; exact hcg.2.1)
    have : ti.events = [] := by rw [← hveq]; rfl
    rw [this] at hev
    simp at hev
  · -- send-off happened in the second half
    obtain ⟨k, hk⟩ : ∃ k, i = ts1.length + 1 + k := ⟨i - ts1.length - 1, by omega⟩
    have hklt : k < ts2.length := by omega
    obtain ⟨ti2, hti2⟩ : ∃ x, ts2.get? k = some x := by
      cases hx : ts2.get? k with
      | none => rw [List.get?_eq_none] at hx; omega
      | some x => exact ⟨x, rfl⟩
    have heveq : ti2.events = ti.events := hevti i ti ti2 hti
      (by rw [hk, hcg.2.2.1 k hklt, hti2])
    obtain ⟨p, hpmem, hpprim, hpsent, hlater⟩ :=
      runMinutes_sendoff hnames h2 k ti2 hti2 ev (by rw [heveq]; exact hev) hty
    rw [hpprim]
    rcases (by omega : (ts1.length + 1 + k < j ∧ j < ts1.length + 1 + ts2.length) ∨
        j = ts1.length + 1 + ts2.length) with ⟨hj1a, hj1b⟩ | hj1
    · obtain ⟨k2, hk2⟩ : ∃ k2, j = ts1.length + 1 + k2 := ⟨j - ts1.length - 1, by omega⟩
      have hk2lt : k2 < ts2.length := by omega
      obtain ⟨tj2, htj2⟩ : ∃ x, ts2.get? k2 = some x := by
        cases hx : ts2.get? k2 with
        | none => rw [List.get?_eq_none] at hx; omega
        | some x => exact ⟨x, rfl⟩
      have hveq : tj2.events = tj.events := hevti j tj tj2 htj
        (by rw [hk2, hcg.2.2.1 k2 hk2lt, htj2])
      exact hlater k2 tj2 (by omega) htj2 ev2 (by rw [hveq]; exact hev2) hty2
    · have hveq : (e.fullTimeTick s2).events = tj.events :=
        hevti j tj (e.fullTimeTick s2) htj (by rw [hj1]; exact hcg.2.2.2.1)
      have : tj.events = [] := by rw [← hveq]; rfl
      rw [this] at hev2
      simp at hev2
  · -- i cannot be the last tick since j > i is still in range
    omega

/-! ## The worked match, evaluated -/

set_option maxHeartbeats 4000000

/-- The worked match completes and produces `exTicks`. -/
theorem exSimulate_eq : exEngine.simulate 1 1 exOracle = some exTicks := rfl

/-- C1 (counterexample to the original claim): in the worked match the
away goalkeeper receives a straight red card in minute 1, yet in
minute 2 he is still the goalkeeper credited with a save — his name
appears as `primary_player` of a `save` event after his sending-off,
because `pick_goalkeeper` does not filter sent-off players. -/
theorem C1_counterexample :
    exEngine.simulate 1 1 exOracle = some exTicks ∧
    (exTicks.get? 0).map (fun t => (t.minute,
        t.events.map (fun ev => (ev.event_type, ev.primary_player))))
      = some (1, [("foul", some "Bob Glove"), ("red_card", some "Bob Glove")]) ∧
    (exTicks.get? 1).map (fun t => (t.minute,
        t.events.map (fun ev => (ev.event_type, ev.primary_player))))
      = some (2, [("save", some "Bob Glove")]) :=
  ⟨exSimulate_eq, by decide, by decide⟩

/-- C1 witness: the amended theorem applied to the worked match — the
minute-3 tackle cannot be by the goalkeeper sent off in minute 1. -/
theorem C1_witness :
    cexTackleEvent.primary_player ≠ cexRedCardEvent.primary_player :=
  C1_sent_off_never_later_actor exEngine 1 1 exOracle exTicks
    (by unfold DistinctNames; decide)
    exSimulate_eq 0 2 (by norm_num) (cexTickAt 0) (cexTickAt 2) rfl rfl
    cexRedCardEvent (by decide) (by decide)
    cexTackleEvent (by decide) (by decide)

/-- C2 witness: the final tick of the worked match carries the
goal-event totals as its score. -/
theorem C2_witness :
    exTicks.getLast? = some (cexTickAt 93) ∧
    (cexTickAt 93).score.home = goalsIn "home" exTicks ∧
    (cexTickAt 93).score.away = goalsIn "away" exTicks :=
  ⟨rfl, (C2_score_equals_goal_events exEngine 1 1 exOracle exTicks
    exSimulate_eq).2.1 (cexTickAt 93) rfl⟩

/-- C3 witness: a concrete scored goal increments home, leaves away,
recentres the ball and flips possession. -/
theorem C3_witness :
    cexShotPair.1.score.ofSide "home" = exEngine.startState.score.ofSide "home" + 1 ∧
    cexShotPair.1.score.ofSide (opponent "home")
      = exEngine.startState.score.ofSide (opponent "home") ∧
    cexShotPair.1.ball = { x := 50, y := 34 } ∧
    cexShotPair.1.possession = opponent "home" :=
  (C3_goal_resets_ball_and_flips_possession exEngine exEngine.startState "home"
    goalPickShot cexShotPair.1 cexShotPair.2 rfl).1 (by decide)

/-- C4 witness: the worked match with one injury minute per half has
`46 + 46 + 2` ticks. -/
theorem C4_witness : exTicks.length = (45 + 1) + (45 + 1) + 2 :=
  (C4_tick_counts exEngine 1 1 exOracle exTicks (by norm_num) (by norm_num)
    (by norm_num) (by norm_num) exSimulate_eq).1

/-- C5 witness: the final tick of the worked match carries the rounded
home share, the away complement, and the two sum to 100. -/
theorem C5_witness :
    exTicks.getLast? = some (cexTickAt 93) ∧
    (cexTickAt 93).stats.home.possession_pct
      = f64round (100 * ((exTicks.filter (fun t => t.possession == "home")).length : ℚ)
          / (exTicks.length : ℚ)) ∧
    (cexTickAt 93).stats.away.possession_pct
      = 100 - (cexTickAt 93).stats.home.possession_pct ∧
    (cexTickAt 93).stats.home.possession_pct
      + (cexTickAt 93).stats.away.possession_pct = 100 := by
  obtain ⟨tl, h1, h2, h3, h4⟩ :=
    C5_possession_sums_to_100 exEngine 1 1 exOracle exTicks exSimulate_eq
  have hg : exTicks.getLast? = some (cexTickAt 93) := rfl
  rw [hg] at h1
  injection h1 with h1
  subst h1
  exact ⟨hg, h2, h3, h4⟩

/-- C6 witness: a concrete second-yellow — the away goalkeeper, already
booked, fouls again with the card roll firing. -/
theorem C6_witness :
    (cexFoulPair.2.filter (fun ev => ev.event_type == "second_yellow")).length = 1 ∧
    (cexFoulPair.2.filter (fun ev => ev.event_type == "yellow_card")).length = 0 ∧
    cexFoulPair.1.sentOff bobGlove.id = true ∧
    (cexFoulPair.1.stats.ofSide (opponent "home")).yellow_cards
      = (cexFoulState.stats.ofSide (opponent "home")).yellow_cards + 1 ∧
    (cexFoulPair.1.stats.ofSide (opponent "home")).red_cards
      = (cexFoulState.stats.ofSide (opponent "home")).red_cards + 1 :=
  (C6_second_yellow_card_logic exEngine cexFoulState "home" cexFoulRand
    cexFoulPair.1 cexFoulPair.2 bobGlove rfl rfl (by decide) (by decide)).1
    (by decide)

/-- C7 witness: in a concrete minute 61 the home goalkeeper gains
exactly the stamina-determined fatigue increment. -/
theorem C7_witness :
    cexMinutePair.1.fatigueOf hugoKeeper.id
      = min (exEngine.startState.fatigueOf hugoKeeper.id
          + 0.01 * max (1 - exEngine.getAttr exEngine.startState hugoKeeper.id
              "stamina" / 40) 0.2) 1 :=
  (C7_fatigue_dynamics exEngine exEngine.startState 61 quietMinute
    cexMinutePair.1 cexMinutePair.2 rfl).2.2.1 (by norm_num) (by decide)
    hugoKeeper (by decide)

/-- C8 witness: at kickoff the home side has a positive total
finishing weight. -/
theorem C8_witness :
    0 < ((exEngine.availablePlayers exEngine.startState "home").map
      (fun p => max (exEngine.getAttr exEngine.startState p.id "finishing") 1)).sum :=
  (C8_selection_total_and_fair exEngine exEngine.startState "home" "finishing" (1/2)
    (by norm_num) (by norm_num) (by decide)).2.2.2.1

/-- C9 witness: a concrete in-range forward move from the centre spot
stays on the pitch. -/
theorem C9_witness : InBounds ((exEngine.startState.moveBallForward "home" 7 0).ball) :=
  (C9_ball_in_bounds exEngine.startState "home" 7 0 1 1 (by norm_num) (by norm_num)
    (by norm_num) (by norm_num) (by unfold InBounds; decide)).1

/-- C10 witness: in the worked match the half-time marker drops the
minute back to 45 right after minute 46. -/
theorem C10_witness :
    (exTicks.map (fun t => t.minute)).get? (45 + 1) = some (45 : Int) :=
  (C10_minutes_not_monotone_not_unique exEngine 1 1 exOracle exTicks (by norm_num)
    (by norm_num) (by norm_num) (by norm_num) exSimulate_eq).2.1
